import Mathlib

/-!
Verification of the XDP DDoS scrubber data plane (src/src/bpf) against its
natural-language specification.

Shallow-embedding conventions, used uniformly below:

* Machine integers are `Nat` with an explicit `% 2^w` at every operation of
  the C source where wrap-around can occur.  64-bit statistics counters are
  modelled as unbounded naturals: they are only ever incremented and no
  claim depends on their wrap-around.
* A raw frame is a `List Nat` of bytes.  The xdp_md pointer pair
  (data, data_end) becomes (offset 0, frame length); a C pointer into the
  frame becomes a byte offset.  `List.set` leaves the list unchanged out of
  bounds, matching the fact that every write in the source is preceded by a
  bounds check.
* Fields the source declares as network byte order (`__be16`, `__be32`) are
  represented by their big-endian numeric value, so `bpf_ntohs`/`bpf_htons`
  and the 32-bit variants are value-level truncations.  Raw native loads
  (the payload fingerprint and the checksum loop) are little-endian, as on
  the little-endian hosts the BPF object is built for.
* BPF maps become functions `key → Option value`; LPM tries are modelled by
  the result of the lookup the data path performs (the data path always
  queries with a /32 key).  `BPF_NOEXIST` updates insert only when the key
  is absent.  The single-slot per-CPU stats map is an `Option GlobalStats`,
  matching the null check guarding every statistics update.
* The event ring buffer is a list; a reservation never fails in the model
  (the source discards the event silently on failure, and no claim depends
  on a lost event).  `bpf_ktime_get_ns` is the `now_ns` field of the world;
  the packet is processed at a single instant.
* The `struct packet_ctx` pointer members set by the parser (`tcp`, `udp`,
  `icmp`, `l4_hdr`) are represented by `l4_ptr : Option Nat`, the byte
  offset of the L4 header (`none` = NULL).  The `payload` pointer is set by
  the parser but never read by any stage, so it is not carried.  The scalar
  members `l4_offset` and `payload_offset` are distinct fields that the
  parser never assigns (they keep their zero initialisation from
  `struct packet_ctx pkt = {}` in xdp_main.c).
-/

namespace DdosScrub

/-! ## Machine-integer helpers -/

def u16mod : Nat := 2 ^ 16

def u32mod : Nat := 2 ^ 32

def u64mod : Nat := 2 ^ 64

/-- Wrapping 64-bit subtraction a - b, as C unsigned arithmetic computes it. -/
def u64sub (a b : Nat) : Nat := (a + u64mod - b % u64mod) % u64mod

/-- Wrapping 32-bit subtraction a - b. -/
def u32sub (a b : Nat) : Nat := (a + u32mod - b % u32mod) % u32mod

/-! ## Verdicts (types.h VERDICT_*) -/

inductive Verdict where
  | pass
  | drop
  | tx
  | redir
  | bypass
deriving DecidableEq, Repr

/-! ## Attack types and drop reasons (types.h) -/

def ATTACK_NONE : Nat := 0

def ATTACK_SYN_FLOOD : Nat := 1

def ATTACK_UDP_FLOOD : Nat := 2

def ATTACK_ICMP_FLOOD : Nat := 3

def ATTACK_ACK_FLOOD : Nat := 4

def ATTACK_DNS_AMP : Nat := 5

def ATTACK_NTP_AMP : Nat := 6

def ATTACK_SSDP_AMP : Nat := 7

def ATTACK_MEMCACHED_AMP : Nat := 8

def ATTACK_FRAGMENT : Nat := 9

def ATTACK_GEOIP_BLOCK : Nat := 11

def ATTACK_REPUTATION : Nat := 12

def ATTACK_PROTO_VIOLATION : Nat := 13

def ATTACK_PAYLOAD_MATCH : Nat := 14

def ATTACK_THREAT_INTEL : Nat := 15

def DROP_BLACKLIST : Nat := 1

def DROP_RATE_LIMIT : Nat := 2

def DROP_SYN_FLOOD : Nat := 3

def DROP_UDP_FLOOD : Nat := 4

def DROP_ICMP_FLOOD : Nat := 5

def DROP_ACK_INVALID : Nat := 6

def DROP_DNS_AMP : Nat := 7

def DROP_NTP_AMP : Nat := 8

def DROP_FRAGMENT : Nat := 9

def DROP_PARSE_ERROR : Nat := 10

def DROP_FINGERPRINT : Nat := 11

def DROP_GEOIP : Nat := 12

def DROP_REPUTATION : Nat := 13

def DROP_PROTO_INVALID : Nat := 14

def DROP_PAYLOAD_MATCH : Nat := 15

def DROP_SSDP_AMP : Nat := 16

def DROP_MEMCACHED_AMP : Nat := 17

def DROP_TCP_STATE : Nat := 18

def DROP_THREAT_INTEL : Nat := 19

/-! ## Configuration keys (types.h CFG_*) -/

def CFG_ENABLED : Nat := 0

def CFG_SYN_RATE_PPS : Nat := 1

def CFG_UDP_RATE_PPS : Nat := 2

def CFG_ICMP_RATE_PPS : Nat := 3

def CFG_GLOBAL_PPS_LIMIT : Nat := 4

def CFG_GLOBAL_BPS_LIMIT : Nat := 5

def CFG_SYN_COOKIE_ENABLE : Nat := 6

def CFG_CONNTRACK_ENABLE : Nat := 7

def CFG_GEOIP_ENABLE : Nat := 11

def CFG_REPUTATION_ENABLE : Nat := 12

def CFG_REPUTATION_THRESH : Nat := 13

def CFG_PROTO_VALID_ENABLE : Nat := 14

def CFG_PAYLOAD_MATCH_EN : Nat := 15

def CFG_ESCALATION_LEVEL : Nat := 16

def CFG_THREAT_INTEL_EN : Nat := 17

def CFG_DNS_VALID_MODE : Nat := 18

def CFG_TCP_STATE_ENABLE : Nat := 19

def ESCALATION_HIGH : Nat := 2

def ESCALATION_CRITICAL : Nat := 3

/-! ## Protocol and TCP-flag constants -/

def IPPROTO_TCP : Nat := 6

def IPPROTO_UDP : Nat := 17

def IPPROTO_ICMP : Nat := 1

def TCP_FLAG_FIN : Nat := 0x01

def TCP_FLAG_SYN : Nat := 0x02

def TCP_FLAG_RST : Nat := 0x04

def TCP_FLAG_PSH : Nat := 0x08

def TCP_FLAG_ACK : Nat := 0x10

def CT_STATE_NEW : Nat := 0

def CT_STATE_SYN_SENT : Nat := 1

def CT_STATE_SYN_RECV : Nat := 2

def CT_STATE_ESTABLISHED : Nat := 3

def CT_STATE_FIN_WAIT : Nat := 4

def CT_STATE_CLOSED : Nat := 5

def CT_STATE_TIME_WAIT : Nat := 6

def CT_FLAG_SYN_COOKIE_VERIFIED : Nat := 1

def REP_WEIGHT_SYN_NO_ACK : Nat := 50

def REP_WEIGHT_RATE_EXCEEDED : Nat := 30

def REP_WEIGHT_PROTO_ANOMALY : Nat := 40

def REP_WEIGHT_BAD_PAYLOAD : Nat := 60

def REP_WEIGHT_FRAGMENT : Nat := 20

def REP_WEIGHT_PORT_SCAN : Nat := 70

def REP_WEIGHT_DECAY_TICK : Nat := 5

def GEOIP_ACTION_DROP : Nat := 1

def GEOIP_ACTION_RATE_LIMIT : Nat := 2

def GEOIP_ACTION_MONITOR : Nat := 3

/-! ## Raw frames -/

/-- A raw L2 frame: a list of bytes. -/
abbrev Frame := List Nat

def byteAt (f : Frame) (i : Nat) : Nat := f.getD i 0

def setByte (f : Frame) (i v : Nat) : Frame := f.set i (v % 256)

/-- Big-endian 16-bit load (network byte order field as a value). -/
def be16 (f : Frame) (i : Nat) : Nat := byteAt f i * 256 + byteAt f (i + 1)

/-- Big-endian 32-bit load. -/
def be32 (f : Frame) (i : Nat) : Nat :=
  ((byteAt f i * 256 + byteAt f (i + 1)) * 256 + byteAt f (i + 2)) * 256
    + byteAt f (i + 3)

/-- Little-endian 16-bit load: a raw native `__u16` load on the
little-endian hosts this BPF object targets (used by the checksum loop). -/
def le16 (f : Frame) (i : Nat) : Nat := byteAt f i + 256 * byteAt f (i + 1)

/-- Little-endian 32-bit load: raw native `__u32` load (payload hash). -/
def le32 (f : Frame) (i : Nat) : Nat :=
  byteAt f i + 256 * (byteAt f (i + 1) + 256 * (byteAt f (i + 2)
    + 256 * byteAt f (i + 3)))

/-- Big-endian 16-bit store. -/
def setBe16 (f : Frame) (i v : Nat) : Frame :=
  setByte (setByte f i ((v / 256) % 256)) (i + 1) (v % 256)

/-- Big-endian 32-bit store. -/
def setBe32 (f : Frame) (i v : Nat) : Frame :=
  setByte (setByte (setByte (setByte f i ((v / 16777216) % 256))
    (i + 1) ((v / 65536) % 256)) (i + 2) ((v / 256) % 256)) (i + 3) (v % 256)

/-- Little-endian 16-bit store (native store of a host-order `__u16`). -/
def setLe16 (f : Frame) (i v : Nat) : Frame :=
  setByte (setByte f i (v % 256)) (i + 1) ((v / 256) % 256)

/-! ## Parsed packet context (types.h struct packet_ctx) -/

structure PacketCtx where
  eth_proto : Nat := 0
  ip_proto : Nat := 0
  src_ip : Nat := 0
  dst_ip : Nat := 0
  pkt_len : Nat := 0
  ttl : Nat := 0
  is_fragment : Nat := 0
  l4_ptr : Option Nat := none
  src_port : Nat := 0
  dst_port : Nat := 0
  tcp_flags : Nat := 0
  l4_payload_len : Nat := 0
  tcp_seq : Nat := 0
  tcp_ack_seq : Nat := 0
  icmp_type : Nat := 0
  icmp_code : Nat := 0
  payload_offset : Nat := 0
  l4_offset : Nat := 0
  l4_payload_hash4 : Nat := 0
deriving DecidableEq, Repr

/-! ## Map entry types (types.h) -/

structure RateLimiter where
  tokens : Nat := 0
  last_refill_ns : Nat := 0
  rate_pps : Nat := 0
  burst_size : Nat := 0
  total_packets : Nat := 0
  dropped_packets : Nat := 0
deriving DecidableEq, Repr

structure CtKey where
  src_ip : Nat
  dst_ip : Nat
  src_port : Nat
  dst_port : Nat
  protocol : Nat
deriving DecidableEq, Repr

structure CtEntry where
  last_seen_ns : Nat := 0
  packets_fwd : Nat := 0
  packets_rev : Nat := 0
  bytes_fwd : Nat := 0
  bytes_rev : Nat := 0
  state : Nat := 0
  flags : Nat := 0
  tcp_window_scale : Nat := 0
  violation_count : Nat := 0
  seq_expected : Nat := 0
deriving DecidableEq, Repr

structure GeoEntry where
  country_code : Nat := 0
  action : Nat := 0
deriving DecidableEq, Repr

structure IpReputation where
  score : Nat := 0
  total_packets : Nat := 0
  dropped_packets : Nat := 0
  violation_count : Nat := 0
  first_seen_ns : Nat := 0
  last_seen_ns : Nat := 0
  last_decay_ns : Nat := 0
  distinct_ports : Nat := 0
  blocked : Nat := 0
  flags : Nat := 0
deriving DecidableEq, Repr

structure PayloadRule where
  pattern : List Nat := []
  mask : List Nat := []
  pattern_len : Nat := 0
  offset : Nat := 0
  protocol : Nat := 0
  action : Nat := 0
  dst_port : Nat := 0
  hit_count : Nat := 0
  rule_id : Nat := 0
deriving DecidableEq, Repr

structure SynCookieCtx where
  seed_current : Nat := 0
  seed_previous : Nat := 0
  seed_update_ns : Nat := 0
deriving DecidableEq, Repr

structure AttackSig where
  protocol : Nat := 0
  flags_mask : Nat := 0
  flags_match : Nat := 0
  src_port_min : Nat := 0
  src_port_max : Nat := 0
  dst_port_min : Nat := 0
  dst_port_max : Nat := 0
  pkt_len_min : Nat := 0
  pkt_len_max : Nat := 0
  payload_hash : Nat := 0
deriving DecidableEq, Repr

structure ThreatEntry where
  source_id : Nat := 0
  threat_type : Nat := 0
  confidence : Nat := 0
  action : Nat := 0
  last_updated : Nat := 0
deriving DecidableEq, Repr

structure PortScanEntry where
  window_start_ns : Nat := 0
  distinct_ports : Nat := 0
  port_bitmap0 : Nat := 0
  port_bitmap1 : Nat := 0
deriving DecidableEq, Repr

structure GlobalStats where
  rx_packets : Nat := 0
  rx_bytes : Nat := 0
  tx_packets : Nat := 0
  tx_bytes : Nat := 0
  dropped_packets : Nat := 0
  dropped_bytes : Nat := 0
  syn_flood_dropped : Nat := 0
  udp_flood_dropped : Nat := 0
  icmp_flood_dropped : Nat := 0
  ack_flood_dropped : Nat := 0
  dns_amp_dropped : Nat := 0
  ntp_amp_dropped : Nat := 0
  fragment_dropped : Nat := 0
  acl_dropped : Nat := 0
  rate_limited : Nat := 0
  conntrack_new : Nat := 0
  conntrack_established : Nat := 0
  syn_cookies_sent : Nat := 0
  syn_cookies_validated : Nat := 0
  syn_cookies_failed : Nat := 0
  geoip_dropped : Nat := 0
  reputation_dropped : Nat := 0
  proto_violation_dropped : Nat := 0
  payload_match_dropped : Nat := 0
  tcp_state_dropped : Nat := 0
  ssdp_amp_dropped : Nat := 0
  memcached_amp_dropped : Nat := 0
  threat_intel_dropped : Nat := 0
  reputation_auto_blocked : Nat := 0
  escalation_upgrades : Nat := 0
  dns_queries_validated : Nat := 0
  dns_queries_blocked : Nat := 0
  ntp_monlist_blocked : Nat := 0
  tcp_state_violations : Nat := 0
  port_scan_detected : Nat := 0
deriving DecidableEq, Repr

/-- Event record as filled in by emit_event (helpers.h).  The reputation
score, country code and escalation fields of struct event are never
assigned by emit_event and are not carried. -/
structure Event where
  timestamp_ns : Nat := 0
  src_ip : Nat := 0
  dst_ip : Nat := 0
  src_port : Nat := 0
  dst_port : Nat := 0
  protocol : Nat := 0
  attack_type : Nat := 0
  action : Nat := 0
  drop_reason : Nat := 0
  pps_estimate : Nat := 0
  bps_estimate : Nat := 0
deriving DecidableEq, Repr

/-! ## The shared map state -/

/-- All BPF map state visible to one worker, plus the time source.
`config` is total with absent entries read as zero, exactly the behaviour
of get_config.  LPM tries are modelled by the /32 lookup the data path
performs. -/
structure World where
  now_ns : Nat
  config : Nat → Nat
  whitelist : Nat → Option Nat
  blacklist : Nat → Option Nat
  threat_intel : Nat → Option ThreatEntry
  geoip : Nat → Option GeoEntry
  geoip_policy : Nat → Option Nat
  reputation : Nat → Option IpReputation
  port_scan : Nat → Option PortScanEntry
  rate_limit : Nat → Option RateLimiter
  adaptive_rate : Nat → Option Nat
  global_rate : Nat → Option RateLimiter
  conntrack : CtKey → Option CtEntry
  syn_cookie : Option SynCookieCtx
  attack_sigs : Nat → Option AttackSig
  attack_sig_count : Option Nat
  payload_rules : Nat → Option PayloadRule
  payload_rule_count : Option Nat
  port_proto : Nat → Option Nat
  stats : Option GlobalStats
  events : List Event

/-- Point update of a map (BPF_ANY / in-place mutation write-back). -/
def updFn {α β : Type} [DecidableEq α] (m : α → Option β) (k : α) (v : β) :
    α → Option β :=
  fun x => if x = k then some v else m x

/-- BPF_NOEXIST update: insert only when the key is absent. -/
def updNoexist {α β : Type} [DecidableEq α] (m : α → Option β) (k : α)
    (v : β) : α → Option β :=
  match m k with
  | some _ => m
  | none => updFn m k v

/-! ## helpers.h -/

def get_config (w : World) (key : Nat) : Nat := w.config key

/-- Statistics update under the null-pointer guard. -/
def bumpStat (w : World) (g : GlobalStats → GlobalStats) : World :=
  { w with stats := w.stats.map g }

def stats_rx (w : World) (pkt_len : Nat) : World :=
  bumpStat w fun s =>
    { s with rx_packets := s.rx_packets + 1, rx_bytes := s.rx_bytes + pkt_len }

def stats_drop (w : World) (pkt_len : Nat) : World :=
  bumpStat w fun s =>
    { s with dropped_packets := s.dropped_packets + 1,
             dropped_bytes := s.dropped_bytes + pkt_len }

def stats_tx (w : World) (pkt_len : Nat) : World :=
  bumpStat w fun s =>
    { s with tx_packets := s.tx_packets + 1, tx_bytes := s.tx_bytes + pkt_len }

/-- emit_event (helpers.h): reserve, fill, submit.  The model appends to
the event list; the timestamp is the processing instant. -/
def emit_event (w : World) (pkt : PacketCtx)
    (attack_type action drop_reason pps_est bps_est : Nat) : World :=
  { w with events := w.events ++
      [{ timestamp_ns := w.now_ns, src_ip := pkt.src_ip, dst_ip := pkt.dst_ip,
         src_port := pkt.src_port, dst_port := pkt.dst_port,
         protocol := pkt.ip_proto, attack_type := attack_type,
         action := action, drop_reason := drop_reason,
         pps_estimate := pps_est, bps_estimate := bps_est }] }

/-! ## SipHash-2-4 (helpers.h siphash_2_4) -/

def rotl64 (x n : Nat) : Nat :=
  (((x % u64mod) <<< n) ||| ((x % u64mod) >>> (64 - n))) % u64mod

structure SipState where
  v0 : Nat
  v1 : Nat
  v2 : Nat
  v3 : Nat

/-- One SIPROUND of the helpers.h macro. -/
def sipround (s : SipState) : SipState :=
  let v0 := (s.v0 + s.v1) % u64mod
  let v1 := rotl64 s.v1 13
  let v1 := (v1 ^^^ v0) % u64mod
  let v0 := rotl64 v0 32
  let v2 := (s.v2 + s.v3) % u64mod
  let v3 := rotl64 s.v3 16
  let v3 := (v3 ^^^ v2) % u64mod
  let v0 := (v0 + v3) % u64mod
  let v3 := rotl64 v3 21
  let v3 := (v3 ^^^ v0) % u64mod
  let v2 := (v2 + v1) % u64mod
  let v1 := rotl64 v1 17
  let v1 := (v1 ^^^ v2) % u64mod
  let v2 := rotl64 v2 32
  { v0 := v0, v1 := v1, v2 := v2, v3 := v3 }

def siphash_2_4 (key0 key1 src_ip dst_ip src_port dst_port : Nat) : Nat :=
  let v0 := (key0 ^^^ 0x736f6d6570736575) % u64mod
  let v1 := (key1 ^^^ 0x646f72616e646f6d) % u64mod
  let v2 := (key0 ^^^ 0x6c7967656e657261) % u64mod
  let v3 := (key1 ^^^ 0x7465646279746573) % u64mod
  let m := ((src_ip % u32mod) ||| ((dst_ip % u32mod) <<< 32)) % u64mod
  let s := sipround (sipround { v0 := v0, v1 := v1, v2 := v2,
                                v3 := (v3 ^^^ m) % u64mod })
  let s := { s with v0 := (s.v0 ^^^ m) % u64mod }
  let m := ((src_port % u16mod) ||| ((dst_port % u16mod) <<< 16)
             ||| (0x0600 <<< 32)) % u64mod
  let s := sipround (sipround { s with v3 := (s.v3 ^^^ m) % u64mod })
  let s := { s with v0 := (s.v0 ^^^ m) % u64mod }
  let s := { s with v2 := (s.v2 ^^^ 0xff) % u64mod }
  let s := sipround (sipround (sipround (sipround s)))
  (s.v0 ^^^ s.v1 ^^^ s.v2 ^^^ s.v3) % u64mod

/-! ## Token bucket (helpers.h token_bucket_consume) -/

/-- The refill half of token_bucket_consume, factored out so the theorems
below can name the intermediate state.  `token_bucket_consume` applies it
verbatim. -/
def token_bucket_refill (rl : RateLimiter) (now_ns : Nat) : RateLimiter :=
  let elapsed_ns := u64sub now_ns rl.last_refill_ns
  let new_tokens := ((elapsed_ns * rl.rate_pps) % u64mod) / 1000000000
  if 0 < new_tokens then
    { rl with tokens := min ((rl.tokens + new_tokens) % u64mod) rl.burst_size,
              last_refill_ns := now_ns }
  else rl

/-- token_bucket_consume (helpers.h): returns (1, updated) on allow and
(0, updated) on drop. -/
def token_bucket_consume (rl : RateLimiter) (now_ns tokens_needed : Nat) :
    Nat × RateLimiter :=
  if rl.rate_pps = 0 then (1, rl)
  else
    let rl1 := token_bucket_refill rl now_ns
    let rl2 := { rl1 with total_packets := rl1.total_packets + 1 }
    if tokens_needed ≤ rl2.tokens then
      (1, { rl2 with tokens := rl2.tokens - tokens_needed })
    else
      (0, { rl2 with dropped_packets := rl2.dropped_packets + 1 })

/-! ## SYN cookies (syn_flood.h) -/

def mss_to_index (mss : Nat) : Nat :=
  if 1460 ≤ mss then 3 else if 1220 ≤ mss then 2 else if 536 ≤ mss then 1
  else 0

def index_to_mss (idx : Nat) : Nat :=
  match idx &&& 0x3 with
  | 3 => 1460
  | 2 => 1220
  | 1 => 536
  | _ => 256

/-- syn_cookie_generate (syn_flood.h): cookie layout is hash bits 31..2
with the MSS index in the low 2 bits. -/
def syn_cookie_generate (pkt : PacketCtx) (seed mss_idx : Nat) : Nat :=
  let hash := siphash_2_4
    (((seed % u32mod) ||| ((seed % u32mod) <<< 32)) % u64mod)
    0x0123456789abcdef pkt.src_ip pkt.dst_ip
    (pkt.src_port % u16mod) (pkt.dst_port % u16mod)
  ((((hash >>> 2) % u32mod) <<< 2) % u32mod) ||| (mss_idx &&& 0x3)

/-- syn_cookie_validate (syn_flood.h): recompute the cookie from
ack_seq - 1 under the current, then the previous seed. -/
def syn_cookie_validate (w : World) (pkt : PacketCtx) (ack_seq : Nat) : Nat :=
  match w.syn_cookie with
  | none => 0
  | some sc =>
    let cookie := u32sub ack_seq 1
    let mss_idx := cookie &&& 0x3
    if cookie = syn_cookie_generate pkt sc.seed_current mss_idx then 1
    else if cookie = syn_cookie_generate pkt sc.seed_previous mss_idx then 1
    else 0

/-! ## Parser (parser.h) -/

/-- One iteration of the unrolled VLAN-stripping loop shared by parser.h,
fragment.h and syn_flood.h.  State is (offset of L3 header, ether type). -/
def vlanOnce (f : Frame) (s : Nat × Nat) : Option (Nat × Nat) :=
  if s.2 = 0x8100 ∨ s.2 = 0x88A8 then
    if s.1 + 4 ≤ f.length then some (s.1 + 4, be16 f (s.1 + 2)) else none
  else some s

/-- Ethernet bounds check plus the two unrolled VLAN iterations.  Returns
the L3 offset and the final ether type, or `none` on a failed bounds
check. -/
def parseL3Start (f : Frame) : Option (Nat × Nat) :=
  if 14 ≤ f.length then (vlanOnce f (14, be16 f 12)).bind (vlanOnce f)
  else none

/-- parse_packet (parser.h).  `none` is the -1 parse failure.  The scalar
offsets `l4_offset` and `payload_offset` are never assigned, faithfully to
the source (they remain zero from the zero initialisation in xdp_main.c);
the parser-set L4 pointer is `l4_ptr`. -/
def parse_packet (f : Frame) : Option PacketCtx :=
  match parseL3Start f with
  | none => none
  | some (l3, eth_proto) =>
    if eth_proto ≠ 0x0800 then none
    else if l3 + 20 ≤ f.length then
      let ihl := byteAt f l3 &&& 0xF
      if ihl < 5 then none
      else if l3 + ihl * 4 ≤ f.length then
        let frag_off := be16 f (l3 + 6)
        let base : PacketCtx :=
          { eth_proto := eth_proto, ip_proto := byteAt f (l3 + 9),
            src_ip := be32 f (l3 + 12), dst_ip := be32 f (l3 + 16),
            pkt_len := be16 f (l3 + 2), ttl := byteAt f (l3 + 8),
            is_fragment :=
              if frag_off &&& 0x1FFF ≠ 0 ∨ frag_off &&& 0x2000 ≠ 0 then 1
              else 0 }
        if frag_off &&& 0x1FFF ≠ 0 then some base
        else
          let l4 := l3 + ihl * 4
          let l4_len := if ihl * 4 < base.pkt_len then base.pkt_len - ihl * 4
                        else 0
          if base.ip_proto = IPPROTO_TCP then
            if l4 + 20 ≤ f.length then
              let thl := (byteAt f (l4 + 12) >>> 4) * 4
              if thl < 20 then none
              else
                let p := l4 + thl
                some { base with
                  l4_ptr := some l4,
                  src_port := be16 f l4, dst_port := be16 f (l4 + 2),
                  tcp_flags := byteAt f (l4 + 13),
                  tcp_seq := be32 f (l4 + 4), tcp_ack_seq := be32 f (l4 + 8),
                  l4_payload_len := if thl < l4_len then l4_len - thl else 0,
                  l4_payload_hash4 :=
                    if p + 4 ≤ f.length then le32 f p else 0 }
            else none
          else if base.ip_proto = IPPROTO_UDP then
            if l4 + 8 ≤ f.length then
              some { base with
                l4_ptr := some l4,
                src_port := be16 f l4, dst_port := be16 f (l4 + 2),
                l4_payload_len := if 8 < l4_len then l4_len - 8 else 0,
                l4_payload_hash4 :=
                  if l4 + 8 + 4 ≤ f.length then le32 f (l4 + 8) else 0 }
            else none
          else if base.ip_proto = IPPROTO_ICMP then
            if l4 + 8 ≤ f.length then
              some { base with
                l4_ptr := some l4,
                src_port := 0, dst_port := byteAt f l4,
                l4_payload_len := if 8 < l4_len then l4_len - 8 else 0 }
            else none
          else
            some { base with l4_ptr := some l4, l4_payload_len := l4_len }
      else none
    else none

/-! ## ACL (acl.h) -/

def acl_check (pkt : PacketCtx) (w : World) : Verdict × World :=
  match w.whitelist pkt.src_ip with
  | some _ => (.pass, w)
  | none =>
    match w.blacklist pkt.src_ip with
    | some _ =>
      let w := bumpStat w fun s => { s with acl_dropped := s.acl_dropped + 1 }
      (.drop, emit_event w pkt ATTACK_NONE 1 DROP_BLACKLIST 0 0)
    | none => (.pass, w)

/-! ## Threat intelligence (threat_intel.h) -/

def threat_intel_check (pkt : PacketCtx) (w : World) : Verdict × World :=
  if get_config w CFG_THREAT_INTEL_EN = 0 then (.pass, w)
  else
    let escalation := get_config w CFG_ESCALATION_LEVEL
    match w.threat_intel pkt.src_ip with
    | none => (.pass, w)
    | some entry =>
      let drop_threshold :=
        if ESCALATION_CRITICAL ≤ escalation then 30
        else if ESCALATION_HIGH ≤ escalation then 50
        else 80
      let rate_limit_threshold :=
        if ESCALATION_CRITICAL ≤ escalation then 10
        else if ESCALATION_HIGH ≤ escalation then 30
        else 50
      if entry.action = 0 then
        if drop_threshold ≤ entry.confidence then
          let w := bumpStat w fun s =>
            { s with threat_intel_dropped := s.threat_intel_dropped + 1 }
          let w := stats_drop w pkt.pkt_len
          (.drop, emit_event w pkt ATTACK_THREAT_INTEL 1 DROP_THREAT_INTEL 0 0)
        else (.pass, w)
      else if entry.action = 1 then
        if rate_limit_threshold ≤ entry.confidence then
          match w.adaptive_rate pkt.src_ip with
          | some _ => (.pass, w)
          | none =>
            let base_rate :=
              if pkt.ip_proto = IPPROTO_TCP then get_config w CFG_SYN_RATE_PPS
              else if pkt.ip_proto = IPPROTO_UDP then
                get_config w CFG_UDP_RATE_PPS
              else if pkt.ip_proto = IPPROTO_ICMP then
                get_config w CFG_ICMP_RATE_PPS
              else get_config w CFG_GLOBAL_PPS_LIMIT
            if 0 < base_rate then
              let stricter := base_rate / 4
              let stricter := if stricter = 0 then 1 else stricter
              (.pass, { w with adaptive_rate :=
                          updNoexist w.adaptive_rate pkt.src_ip stricter })
            else (.pass, w)
        else (.pass, w)
      else if entry.action = 2 then
        (.pass, emit_event w pkt ATTACK_THREAT_INTEL 0 0 0 0)
      else (.pass, w)

/-! ## GeoIP (geoip.h) -/

def geoip_check (pkt : PacketCtx) (w : World) : Verdict × World :=
  if get_config w CFG_GEOIP_ENABLE = 0 then (.pass, w)
  else
    let escalation := get_config w CFG_ESCALATION_LEVEL
    match w.geoip pkt.src_ip with
    | none =>
      if ESCALATION_CRITICAL ≤ escalation then
        let w := bumpStat w fun s =>
          { s with geoip_dropped := s.geoip_dropped + 1 }
        let w := stats_drop w pkt.pkt_len
        (.drop, emit_event w pkt ATTACK_GEOIP_BLOCK 1 DROP_GEOIP 0 0)
      else (.pass, w)
    | some geo =>
      match w.geoip_policy geo.country_code with
      | none =>
        if ESCALATION_CRITICAL ≤ escalation then
          let w := bumpStat w fun s =>
            { s with geoip_dropped := s.geoip_dropped + 1 }
          let w := stats_drop w pkt.pkt_len
          (.drop, emit_event w pkt ATTACK_GEOIP_BLOCK 1 DROP_GEOIP 0 0)
        else (.pass, w)
      | some action =>
        if action = GEOIP_ACTION_DROP then
          let w := bumpStat w fun s =>
            { s with geoip_dropped := s.geoip_dropped + 1 }
          let w := stats_drop w pkt.pkt_len
          (.drop, emit_event w pkt ATTACK_GEOIP_BLOCK 1 DROP_GEOIP 0 0)
        else if action = GEOIP_ACTION_RATE_LIMIT then
          match w.adaptive_rate pkt.src_ip with
          | some _ => (.pass, w)
          | none =>
            let base_rate :=
              if pkt.ip_proto = IPPROTO_TCP then get_config w CFG_SYN_RATE_PPS
              else if pkt.ip_proto = IPPROTO_UDP then
                get_config w CFG_UDP_RATE_PPS
              else if pkt.ip_proto = IPPROTO_ICMP then
                get_config w CFG_ICMP_RATE_PPS
              else get_config w CFG_GLOBAL_PPS_LIMIT
            if 0 < base_rate then
              let stricter := base_rate / 2
              let stricter := if stricter = 0 then 1 else stricter
              (.pass, { w with adaptive_rate :=
                          updNoexist w.adaptive_rate pkt.src_ip stricter })
            else (.pass, w)
        else if action = GEOIP_ACTION_MONITOR then
          (.pass, emit_event w pkt ATTACK_GEOIP_BLOCK 0 0 0 0)
        else (.pass, w)

/-! ## Reputation (reputation.h) -/

def PORT_SCAN_WINDOW_NS : Nat := 10000000000

def PORT_SCAN_THRESHOLD : Nat := 20

def REP_DECAY_INTERVAL_NS : Nat := 1000000000

/-- port_scan_detect (reputation.h).  Returns the penalty weight to apply
(0 when no scan is detected) and the updated world. -/
def port_scan_detect (w : World) (src_ip dst_port now_ns : Nat) :
    Nat × World :=
  let port := dst_port % u16mod
  match w.port_scan src_ip with
  | none =>
    let nps : PortScanEntry :=
      { window_start_ns := now_ns, distinct_ports := 1,
        port_bitmap0 := if port < 32 then (1 <<< port) % u32mod else 0,
        port_bitmap1 :=
          if port < 32 then 0
          else if port < 64 then (1 <<< (port - 32)) % u32mod
          else 0 }
    (0, { w with port_scan := updNoexist w.port_scan src_ip nps })
  | some ps =>
    if PORT_SCAN_WINDOW_NS < u64sub now_ns ps.window_start_ns then
      let ps1 : PortScanEntry :=
        { window_start_ns := now_ns, distinct_ports := 1,
          port_bitmap0 := if port < 32 then (1 <<< port) % u32mod else 0,
          port_bitmap1 :=
            if port < 32 then 0
            else if port < 64 then (1 <<< (port - 32)) % u32mod
            else 0 }
      (0, { w with port_scan := updFn w.port_scan src_ip ps1 })
    else
      let seen_upd :=
        if port < 32 then
          let bit := (1 <<< port) % u32mod
          if ps.port_bitmap0 &&& bit ≠ 0 then (true, ps)
          else (false, { ps with port_bitmap0 := ps.port_bitmap0 ||| bit })
        else if port < 64 then
          let bit := (1 <<< (port - 32)) % u32mod
          if ps.port_bitmap1 &&& bit ≠ 0 then (true, ps)
          else (false, { ps with port_bitmap1 := ps.port_bitmap1 ||| bit })
        else (false, ps)
      let ps2 :=
        if seen_upd.1 then seen_upd.2
        else { seen_upd.2 with
                 distinct_ports := (seen_upd.2.distinct_ports + 1) % u32mod }
      if PORT_SCAN_THRESHOLD < ps2.distinct_ports then
        let w := { w with port_scan := updFn w.port_scan src_ip ps2 }
        let w := bumpStat w fun s =>
          { s with port_scan_detected := s.port_scan_detected + 1 }
        (REP_WEIGHT_PORT_SCAN, w)
      else
        (0, { w with port_scan := updFn w.port_scan src_ip ps2 })

/-- reputation_penalize (reputation.h). -/
def reputation_penalize (w : World) (src_ip weight now_ns : Nat) : World :=
  if get_config w CFG_REPUTATION_ENABLE = 0 then w
  else
    match w.reputation src_ip with
    | none =>
      let nr : IpReputation :=
        { score := weight, violation_count := 1, first_seen_ns := now_ns,
          last_seen_ns := now_ns, last_decay_ns := now_ns }
      { w with reputation := updNoexist w.reputation src_ip nr }
    | some rep =>
      let rep := { rep with
        score := (rep.score + weight) % u32mod,
        violation_count := (rep.violation_count + 1) % u32mod,
        last_seen_ns := now_ns }
      let rep := if 1000 < rep.score then { rep with score := 1000 } else rep
      { w with reputation := updFn w.reputation src_ip rep }

/-- The score-decay block of reputation_check, factored out so the proofs
below can reason about it in isolation. -/
def rep_decay (rep : IpReputation) (now_ns : Nat) : IpReputation :=
  if REP_DECAY_INTERVAL_NS < u64sub now_ns rep.last_decay_ns then
    let elapsed := u64sub now_ns rep.last_decay_ns / REP_DECAY_INTERVAL_NS
    let elapsed := if 60 < elapsed then 60 else elapsed
    let total_decay := ((elapsed % u32mod) * REP_WEIGHT_DECAY_TICK) % u32mod
    let rep :=
      if total_decay < rep.score then
        { rep with score := rep.score - total_decay }
      else { rep with score := 0 }
    { rep with last_decay_ns := now_ns }
  else rep

/-- The port-scan penalty application of reputation_check, factored out. -/
def rep_apply_scan (rep : IpReputation) (pen : Nat) : IpReputation :=
  if 0 < pen then
    let rep : IpReputation := { rep with
      score := (rep.score + pen) % u32mod,
      violation_count := (rep.violation_count + 1) % u32mod }
    if 1000 < rep.score then { rep with score := 1000 } else rep
  else rep

/-- reputation_check (reputation.h). -/
def reputation_check (pkt : PacketCtx) (w : World) (now_ns : Nat) :
    Verdict × World :=
  if get_config w CFG_REPUTATION_ENABLE = 0 then (.pass, w)
  else
    let threshold := get_config w CFG_REPUTATION_THRESH
    let threshold := if threshold = 0 then 500 else threshold
    match w.reputation pkt.src_ip with
    | none =>
      let nr : IpReputation :=
        { score := 0, total_packets := 1, first_seen_ns := now_ns,
          last_seen_ns := now_ns, last_decay_ns := now_ns }
      let w := { w with reputation := updNoexist w.reputation pkt.src_ip nr }
      (.pass, (port_scan_detect w pkt.src_ip pkt.dst_port now_ns).2)
    | some rep =>
      if rep.blocked ≠ 0 then
        let rep := { rep with
          total_packets := (rep.total_packets + 1) % u32mod,
          dropped_packets := (rep.dropped_packets + 1) % u32mod,
          last_seen_ns := now_ns }
        let w := { w with reputation := updFn w.reputation pkt.src_ip rep }
        let w := bumpStat w fun s =>
          { s with reputation_dropped := s.reputation_dropped + 1 }
        let w := stats_drop w pkt.pkt_len
        (.drop, emit_event w pkt ATTACK_REPUTATION 1 DROP_REPUTATION 0 0)
      else
        let rep := { rep with
          total_packets := (rep.total_packets + 1) % u32mod,
          last_seen_ns := now_ns }
        let rep := rep_decay rep now_ns
        let sp := port_scan_detect w pkt.src_ip pkt.dst_port now_ns
        let w := sp.2
        let rep := rep_apply_scan rep sp.1
        if threshold % u32mod ≤ rep.score then
          let rep := { rep with
            blocked := 1,
            dropped_packets := (rep.dropped_packets + 1) % u32mod }
          let w := { w with reputation := updFn w.reputation pkt.src_ip rep }
          let w := bumpStat w fun s =>
            { s with reputation_dropped := s.reputation_dropped + 1,
                     reputation_auto_blocked := s.reputation_auto_blocked + 1 }
          let w := stats_drop w pkt.pkt_len
          (.drop, emit_event w pkt ATTACK_REPUTATION 1 DROP_REPUTATION 0 0)
        else
          (.pass, { w with reputation := updFn w.reputation pkt.src_ip rep })

/-! ## Fragment (fragment.h) -/

def fragment_check (f : Frame) (pkt : PacketCtx) (w : World) :
    Verdict × World :=
  if pkt.is_fragment = 0 then (.pass, w)
  else
    match parseL3Start f with
    | none => (.pass, w)
    | some (l3, _) =>
      if l3 + 20 ≤ f.length then
        let frag_off := be16 f (l3 + 6)
        let offset := (frag_off &&& 0x1FFF) * 8
        let more_fragments := frag_off &&& 0x2000 ≠ 0
        if 0 < offset ∨ more_fragments then
          if offset = 0 ∧ pkt.pkt_len < 68 then
            let w := bumpStat w fun s =>
              { s with fragment_dropped := s.fragment_dropped + 1 }
            (.drop, emit_event w pkt ATTACK_FRAGMENT 1 DROP_FRAGMENT 0 0)
          else
            let w := bumpStat w fun s =>
              { s with fragment_dropped := s.fragment_dropped + 1 }
            (.drop, emit_event w pkt ATTACK_FRAGMENT 1 DROP_FRAGMENT 0 0)
        else (.pass, w)
      else (.pass, w)

/-! ## Signature fingerprint (fingerprint.h) -/

/-- payload_hash_4bytes (fingerprint.h): first four payload bytes as a raw
native `__u32` load. -/
def payload_hash_4bytes (f : Frame) (pkt : PacketCtx) : Nat :=
  let pp : Option Nat :=
    if pkt.ip_proto = IPPROTO_TCP then
      pkt.l4_ptr.map fun t => t + (byteAt f (t + 12) >>> 4) * 4
    else if pkt.ip_proto = IPPROTO_UDP then
      pkt.l4_ptr.map fun u => u + 8
    else none
  match pp with
  | none => 0
  | some p => if p + 4 ≤ f.length then le32 f p else 0

/-- sig_matches (fingerprint.h).  The lazily cached payload hash of the
source is a pure computation and is inlined. -/
def sig_matches (f : Frame) (sig : AttackSig) (pkt : PacketCtx)
    (src_port_h dst_port_h : Nat) : Bool :=
  if sig.protocol ≠ 0 ∧ sig.protocol ≠ pkt.ip_proto then false
  else if sig.flags_mask ≠ 0 ∧
      pkt.tcp_flags &&& sig.flags_mask ≠ sig.flags_match then false
  else if (sig.src_port_min ≠ 0 ∨ sig.src_port_max ≠ 0) ∧
      (src_port_h < sig.src_port_min ∨ sig.src_port_max < src_port_h) then
    false
  else if (sig.dst_port_min ≠ 0 ∨ sig.dst_port_max ≠ 0) ∧
      (dst_port_h < sig.dst_port_min ∨ sig.dst_port_max < dst_port_h) then
    false
  else if (sig.pkt_len_min ≠ 0 ∨ sig.pkt_len_max ≠ 0) ∧
      (pkt.pkt_len < sig.pkt_len_min ∨ sig.pkt_len_max < pkt.pkt_len) then
    false
  else if sig.payload_hash ≠ 0 ∧
      payload_hash_4bytes f pkt ≠ sig.payload_hash then false
  else true

/-- The manually unrolled _CHECK_SIG chain of fingerprint_check, one list
element per unrolled index. -/
def fingerprint_loop (f : Frame) (pkt : PacketCtx)
    (count src_port_h dst_port_h : Nat) (w : World) :
    List Nat → Verdict × World
  | [] => (.pass, w)
  | idx :: rest =>
    if idx < count then
      match w.attack_sigs idx with
      | some sig =>
        if sig_matches f sig pkt src_port_h dst_port_h then
          let w := bumpStat w fun s =>
            { s with acl_dropped := s.acl_dropped + 1 }
          (.drop, emit_event w pkt ATTACK_NONE 1 DROP_FINGERPRINT 0 0)
        else fingerprint_loop f pkt count src_port_h dst_port_h w rest
      | none => fingerprint_loop f pkt count src_port_h dst_port_h w rest
    else fingerprint_loop f pkt count src_port_h dst_port_h w rest

def fingerprint_check (f : Frame) (pkt : PacketCtx) (w : World) :
    Verdict × World :=
  match w.attack_sig_count with
  | none => (.pass, w)
  | some c =>
    if c = 0 then (.pass, w)
    else
      let count := if 8 < c then 8 else c
      fingerprint_loop f pkt count (pkt.src_port % u16mod)
        (pkt.dst_port % u16mod) w [0, 1, 2, 3, 4, 5, 6, 7]

/-! ## Payload pattern match (payload_match.h) -/

/-- payload_handle_action (payload_match.h).  `idx` locates the rule for
the hit-counter write-back. -/
def payload_handle_action (idx : Nat) (rule : PayloadRule) (pkt : PacketCtx)
    (w : World) : Verdict × World :=
  let rule1 : PayloadRule :=
    { rule with hit_count := (rule.hit_count + 1) % u32mod }
  if rule.action = 0 then
    let w := { w with payload_rules := updFn w.payload_rules idx rule1 }
    let w := bumpStat w fun s =>
      { s with payload_match_dropped := s.payload_match_dropped + 1 }
    let w := stats_drop w pkt.pkt_len
    (.drop, emit_event w pkt ATTACK_PAYLOAD_MATCH 1 DROP_PAYLOAD_MATCH 0 0)
  else if rule.action = 1 then
    let w := { w with payload_rules := updFn w.payload_rules idx rule1 }
    match w.adaptive_rate pkt.src_ip with
    | some _ => (.pass, w)
    | none =>
      let base_rate :=
        if pkt.ip_proto = IPPROTO_TCP then get_config w CFG_SYN_RATE_PPS
        else if pkt.ip_proto = IPPROTO_UDP then get_config w CFG_UDP_RATE_PPS
        else get_config w CFG_GLOBAL_PPS_LIMIT
      if 0 < base_rate then
        let stricter := base_rate / 4
        let stricter := if stricter = 0 then 1 else stricter
        (.pass, { w with adaptive_rate :=
                    updNoexist w.adaptive_rate pkt.src_ip stricter })
      else (.pass, w)
  else if rule.action = 2 then
    let w := { w with payload_rules := updFn w.payload_rules idx rule1 }
    (.pass, emit_event w pkt ATTACK_PAYLOAD_MATCH 0 0 0 0)
  else (.pass, w)

/-- One _PM_CMP(n) of the unrolled masked comparison: true when byte n is
compared and mismatches. -/
def pm_mismatch (f : Frame) (rule : PayloadRule) (match_start n : Nat) :
    Bool :=
  n < rule.pattern_len ∧
    byteAt f (match_start + n) &&& rule.mask.getD n 0 ≠
      rule.pattern.getD n 0 &&& rule.mask.getD n 0

/-- check_payload_rule (payload_match.h): `none` is the -1 no-match
result. -/
def check_payload_rule (f : Frame) (pkt : PacketCtx) (w : World) (idx : Nat) :
    Option (Verdict × World) :=
  match w.payload_rules idx with
  | none => none
  | some rule =>
    if rule.protocol ≠ 0 ∧ rule.protocol ≠ pkt.ip_proto then none
    else if rule.dst_port ≠ 0 ∧ rule.dst_port ≠ pkt.dst_port then none
    else if rule.pattern_len = 0 ∨ 16 < rule.pattern_len then none
    else if pkt.payload_offset = 0 then none
    else
      let total_offset := pkt.payload_offset + rule.offset
      if 1500 < total_offset then none
      else if ¬ total_offset + rule.pattern_len ≤ f.length then none
      else if ¬ rule.offset + rule.pattern_len ≤ pkt.l4_payload_len then none
      else if (List.range 16).any (pm_mismatch f rule total_offset) then none
      else some (payload_handle_action idx rule pkt w)

/-- The manually unrolled _CHECK_PRULE chain of payload_match_check. -/
def payload_loop (f : Frame) (pkt : PacketCtx) (rule_count : Nat) (w : World) :
    List Nat → Verdict × World
  | [] => (.pass, w)
  | idx :: rest =>
    if idx < rule_count then
      match check_payload_rule f pkt w idx with
      | some r => r
      | none => payload_loop f pkt rule_count w rest
    else payload_loop f pkt rule_count w rest

def payload_match_check (f : Frame) (pkt : PacketCtx) (w : World) :
    Verdict × World :=
  if get_config w CFG_PAYLOAD_MATCH_EN = 0 then (.pass, w)
  else if pkt.payload_offset = 0 ∨ pkt.l4_payload_len = 0 then (.pass, w)
  else
    match w.payload_rule_count with
    | none => (.pass, w)
    | some c =>
      if c = 0 then (.pass, w)
      else
        let rule_count := if 8 < c then 8 else c
        payload_loop f pkt rule_count w [0, 1, 2, 3, 4, 5, 6, 7]

/-! ## Deep protocol validation (proto_validator.h) -/

def dns_validate (f : Frame) (pkt : PacketCtx) (w : World) (dns_mode : Nat) :
    Verdict × World :=
  let pay_off := pkt.payload_offset
  if pay_off = 0 ∨ 1500 < pay_off then (.pass, w)
  else if ¬ pay_off ≤ f.length then (.pass, w)
  else if ¬ pay_off + 12 ≤ f.length then (.pass, w)
  else
    let flags := be16 f (pay_off + 2)
    let qdcount := be16 f (pay_off + 4)
    let ancount := be16 f (pay_off + 6)
    let is_response := flags &&& 0x8000 ≠ 0
    if is_response ∧ 10 < ancount then
      let w := bumpStat w fun s =>
        { s with dns_queries_blocked := s.dns_queries_blocked + 1,
                 proto_violation_dropped := s.proto_violation_dropped + 1 }
      let w := stats_drop w pkt.pkt_len
      (.drop, emit_event w pkt ATTACK_DNS_AMP 1 DROP_DNS_AMP 0 0)
    else if 2 ≤ dns_mode ∧ ¬ is_response ∧ qdcount ≠ 1 then
      let w := bumpStat w fun s =>
        { s with dns_queries_blocked := s.dns_queries_blocked + 1,
                 proto_violation_dropped := s.proto_violation_dropped + 1 }
      let w := stats_drop w pkt.pkt_len
      (.drop, emit_event w pkt ATTACK_PROTO_VIOLATION 1 DROP_PROTO_INVALID 0 0)
    else if 2 ≤ dns_mode ∧ ¬ is_response ∧
        (flags >>> 11) &&& 0xF ≠ 0 then
      let w := bumpStat w fun s =>
        { s with dns_queries_blocked := s.dns_queries_blocked + 1,
                 proto_violation_dropped := s.proto_violation_dropped + 1 }
      let w := stats_drop w pkt.pkt_len
      (.drop, emit_event w pkt ATTACK_PROTO_VIOLATION 1 DROP_PROTO_INVALID 0 0)
    else if 2 ≤ dns_mode ∧ ¬ is_response ∧ 512 < pkt.l4_payload_len then
      let w := bumpStat w fun s =>
        { s with dns_queries_blocked := s.dns_queries_blocked + 1,
                 proto_violation_dropped := s.proto_violation_dropped + 1 }
      let w := stats_drop w pkt.pkt_len
      (.drop, emit_event w pkt ATTACK_PROTO_VIOLATION 1 DROP_PROTO_INVALID 0 0)
    else
      (.pass, bumpStat w fun s =>
        { s with dns_queries_validated := s.dns_queries_validated + 1 })

def ntp_validate (f : Frame) (pkt : PacketCtx) (w : World) :
    Verdict × World :=
  let pay_off := pkt.payload_offset
  if pay_off = 0 ∨ 1500 < pay_off then (.pass, w)
  else if ¬ pay_off ≤ f.length then (.pass, w)
  else if ¬ pay_off + 16 ≤ f.length then (.pass, w)
  else
    let mode := byteAt f pay_off &&& 0x07
    if mode = 7 then
      let w := bumpStat w fun s =>
        { s with ntp_monlist_blocked := s.ntp_monlist_blocked + 1,
                 proto_violation_dropped := s.proto_violation_dropped + 1 }
      let w := stats_drop w pkt.pkt_len
      (.drop, emit_event w pkt ATTACK_NTP_AMP 1 DROP_NTP_AMP 0 0)
    else if mode = 6 then
      let fwd := w.conntrack
        ⟨pkt.src_ip, pkt.dst_ip, pkt.src_port, pkt.dst_port, IPPROTO_UDP⟩
      let fwd_est : Bool := match fwd with
        | some c => CT_STATE_ESTABLISHED ≤ c.state
        | none => false
      if fwd_est then (.pass, w)
      else
        let rev := w.conntrack
          ⟨pkt.dst_ip, pkt.src_ip, pkt.dst_port, pkt.src_port, IPPROTO_UDP⟩
        let rev_est : Bool := match rev with
          | some c => CT_STATE_ESTABLISHED ≤ c.state
          | none => false
        if rev_est then (.pass, w)
        else
          let w := bumpStat w fun s =>
            { s with ntp_monlist_blocked := s.ntp_monlist_blocked + 1,
                     proto_violation_dropped := s.proto_violation_dropped + 1 }
          let w := stats_drop w pkt.pkt_len
          (.drop, emit_event w pkt ATTACK_NTP_AMP 1 DROP_NTP_AMP 0 0)
    else if (mode = 3 ∨ mode = 4) ∧ pkt.l4_payload_len < 48 then
      let w := bumpStat w fun s =>
        { s with proto_violation_dropped := s.proto_violation_dropped + 1 }
      let w := stats_drop w pkt.pkt_len
      (.drop, emit_event w pkt ATTACK_PROTO_VIOLATION 1 DROP_PROTO_INVALID 0 0)
    else (.pass, w)

def ssdp_validate (f : Frame) (pkt : PacketCtx) (w : World) :
    Verdict × World :=
  let pay_off := pkt.payload_offset
  if pay_off = 0 ∨ 1500 < pay_off then (.pass, w)
  else if ¬ pay_off ≤ f.length then (.pass, w)
  else if ¬ pay_off + 8 ≤ f.length then (.pass, w)
  else
    let is_http := byteAt f pay_off = 0x48 ∧ byteAt f (pay_off + 1) = 0x54 ∧
      byteAt f (pay_off + 2) = 0x54 ∧ byteAt f (pay_off + 3) = 0x50 ∧
      byteAt f (pay_off + 4) = 0x2F ∧ byteAt f (pay_off + 5) = 0x31 ∧
      byteAt f (pay_off + 6) = 0x2E ∧ byteAt f (pay_off + 7) = 0x31
    let is_notify := byteAt f pay_off = 0x4E ∧
      byteAt f (pay_off + 1) = 0x4F ∧ byteAt f (pay_off + 2) = 0x54 ∧
      byteAt f (pay_off + 3) = 0x49 ∧ byteAt f (pay_off + 4) = 0x46 ∧
      byteAt f (pay_off + 5) = 0x59
    if is_http ∨ is_notify then
      let w := bumpStat w fun s =>
        { s with ssdp_amp_dropped := s.ssdp_amp_dropped + 1,
                 proto_violation_dropped := s.proto_violation_dropped + 1 }
      let w := stats_drop w pkt.pkt_len
      (.drop, emit_event w pkt ATTACK_SSDP_AMP 1 DROP_SSDP_AMP 0 0)
    else (.pass, w)

def memcached_validate (pkt : PacketCtx) (w : World) : Verdict × World :=
  let w := bumpStat w fun s =>
    { s with memcached_amp_dropped := s.memcached_amp_dropped + 1,
             proto_violation_dropped := s.proto_violation_dropped + 1 }
  let w := stats_drop w pkt.pkt_len
  (.drop, emit_event w pkt ATTACK_MEMCACHED_AMP 1 DROP_MEMCACHED_AMP 0 0)

/-- The flags-vs-state switch of tcp_state_validate: true when the flag
combination is a violation in the given conntrack state. -/
def tcp_flags_violation (state flags : Nat) : Bool :=
  if state = CT_STATE_NEW then
    ¬ flags &&& (TCP_FLAG_SYN ||| TCP_FLAG_ACK) = TCP_FLAG_SYN
  else if state = CT_STATE_SYN_SENT then
    ¬ flags &&& (TCP_FLAG_SYN ||| TCP_FLAG_ACK) =
        TCP_FLAG_SYN ||| TCP_FLAG_ACK ∧
      flags &&& TCP_FLAG_RST = 0
  else if state = CT_STATE_SYN_RECV then
    (flags &&& TCP_FLAG_ACK = 0 ∧ flags &&& TCP_FLAG_RST = 0) ∨
      (flags &&& TCP_FLAG_SYN ≠ 0 ∧ flags &&& TCP_FLAG_ACK = 0)
  else if state = CT_STATE_ESTABLISHED then
    flags &&& TCP_FLAG_SYN ≠ 0 ∧ flags &&& TCP_FLAG_ACK = 0
  else if state = CT_STATE_FIN_WAIT then
    flags &&& TCP_FLAG_SYN ≠ 0
  else if state = CT_STATE_CLOSED ∨ state = CT_STATE_TIME_WAIT then
    flags &&& TCP_FLAG_RST = 0
  else false

/-- The sequence-window check of tcp_state_validate: out-of-window by more
than 2^30 in unsigned 32-bit distance. -/
def tcp_seq_violation (ct : CtEntry) (pkt : PacketCtx) : Bool :=
  CT_STATE_ESTABLISHED ≤ ct.state ∧ ct.seq_expected ≠ 0 ∧
    (let diff := u32sub pkt.tcp_seq ct.seq_expected
     2 ^ 30 < diff ∧ diff < u32mod - 2 ^ 30)

def tcp_state_validate (f : Frame) (pkt : PacketCtx) (w : World)
    (now_ns : Nat) : Verdict × World :=
  if get_config w CFG_TCP_STATE_ENABLE = 0 then (.pass, w)
  else if pkt.ip_proto ≠ IPPROTO_TCP then (.pass, w)
  else if pkt.l4_offset = 0 then (.pass, w)
  else if 1500 < pkt.l4_offset then (.pass, w)
  else if ¬ pkt.l4_offset + 20 ≤ f.length then (.pass, w)
  else
    let flags := pkt.tcp_flags
    let escalation := get_config w CFG_ESCALATION_LEVEL
    let violation_limit := if ESCALATION_HIGH ≤ escalation then 1 else 3
    let key : CtKey :=
      ⟨pkt.src_ip, pkt.dst_ip, pkt.src_port, pkt.dst_port, IPPROTO_TCP⟩
    match w.conntrack key with
    | none =>
      if flags &&& (TCP_FLAG_SYN ||| TCP_FLAG_ACK) = TCP_FLAG_SYN then
        (.pass, w)
      else if flags &&& TCP_FLAG_RST ≠ 0 then (.pass, w)
      else
        let w := bumpStat w fun s =>
          { s with tcp_state_violations := s.tcp_state_violations + 1,
                   proto_violation_dropped := s.proto_violation_dropped + 1,
                   tcp_state_dropped := s.tcp_state_dropped + 1 }
        let w := stats_drop w pkt.pkt_len
        (.drop, emit_event w pkt ATTACK_PROTO_VIOLATION 1 DROP_TCP_STATE 0 0)
    | some ct =>
      let violation :=
        if tcp_flags_violation ct.state flags then true
        else tcp_seq_violation ct pkt
      if violation then
        let ct1 := { ct with
          violation_count := (ct.violation_count + 1) % 256 }
        let w := { w with conntrack := updFn w.conntrack key ct1 }
        let w := bumpStat w fun s =>
          { s with tcp_state_violations := s.tcp_state_violations + 1 }
        if violation_limit < ct1.violation_count then
          let w := bumpStat w fun s =>
            { s with proto_violation_dropped := s.proto_violation_dropped + 1,
                     tcp_state_dropped := s.tcp_state_dropped + 1 }
          let w := stats_drop w pkt.pkt_len
          (.drop,
            emit_event w pkt ATTACK_PROTO_VIOLATION 1 DROP_TCP_STATE 0 0)
        else (.pass, w)
      else (.pass, w)

/-- proto_validate (proto_validator.h): dispatcher.  The store of the
re-derived payload pointer into pkt is not carried (nothing reads it). -/
def proto_validate (f : Frame) (pkt : PacketCtx) (w : World) (now_ns : Nat) :
    Verdict × World :=
  if get_config w CFG_PROTO_VALID_ENABLE = 0 then (.pass, w)
  else
    let tr := if pkt.ip_proto = IPPROTO_TCP then
                tcp_state_validate f pkt w now_ns
              else (.pass, w)
    if tr.1 = .drop then (.drop, tr.2)
    else
      let w := tr.2
      if pkt.ip_proto = IPPROTO_UDP then
        let dst_port := pkt.dst_port % u16mod
        let pay_off := pkt.payload_offset
        if pay_off = 0 ∨ 1500 < pay_off then (.pass, w)
        else if ¬ pay_off ≤ f.length then (.pass, w)
        else if dst_port = 53 ∧ 0 < get_config w CFG_DNS_VALID_MODE then
          dns_validate f pkt w (get_config w CFG_DNS_VALID_MODE)
        else if dst_port = 123 then ntp_validate f pkt w
        else if dst_port = 1900 then ssdp_validate f pkt w
        else if dst_port = 11211 then memcached_validate pkt w
        else
          match w.port_proto pkt.dst_port with
          | none => (.pass, w)
          | some pf =>
            if pf = 0 then (.pass, w)
            else if pf &&& 1 ≠ 0 ∧ 0 < get_config w CFG_DNS_VALID_MODE then
              dns_validate f pkt w (get_config w CFG_DNS_VALID_MODE)
            else if pf &&& 2 ≠ 0 then ntp_validate f pkt w
            else if pf &&& 4 ≠ 0 then ssdp_validate f pkt w
            else if pf &&& 8 ≠ 0 then memcached_validate pkt w
            else (.pass, w)
      else (.pass, w)

/-! ## SYN flood (syn_flood.h) -/

/-- The Ethernet address swap of the SYN-ACK rewrite: bytes 0-5 (dest) and
6-11 (source) exchanged via a temporary copy. -/
def swapMacAddrs (f : Frame) : Frame :=
  (List.range 6).foldl
    (fun g i => setByte (setByte g i (byteAt f (6 + i))) (6 + i) (byteAt f i))
    f

/-- csum_fold (helpers.h). -/
def csum_fold (c : Nat) : Nat :=
  let c := (c &&& 0xFFFF) + ((c % u32mod) >>> 16)
  let c := (c &&& 0xFFFF) + (c >>> 16)
  0xFFFF ^^^ (c &&& 0xFFFF)

/-- The unrolled 10-word IP checksum loop of the SYN-ACK rewrite, with the
per-word bounds check breaking the loop.  The header is read at the fixed
offset 14 exactly as the source re-derives it. -/
def ipChecksumWords (g : Frame) : List Nat → Nat
  | [] => 0
  | i :: rest =>
    if 14 + 2 * i + 2 ≤ g.length then
      le16 g (14 + 2 * i) + ipChecksumWords g rest
    else 0

/-- syn_flood_check (syn_flood.h).  Returns the verdict, the world, and
the (possibly rewritten) frame. -/
def syn_flood_check (f : Frame) (pkt : PacketCtx) (w : World) (now_ns : Nat) :
    Verdict × World × Frame :=
  if pkt.ip_proto ≠ IPPROTO_TCP then (.pass, w, f)
  else if pkt.l4_ptr = none then (.pass, w, f)
  else if get_config w CFG_SYN_COOKIE_ENABLE = 0 then (.pass, w, f)
  else if pkt.tcp_flags &&& (TCP_FLAG_SYN ||| TCP_FLAG_ACK) = TCP_FLAG_SYN
  then
    match w.syn_cookie with
    | none => (.pass, w, f)
    | some sc =>
      let mss_idx := mss_to_index 1460
      let cookie := syn_cookie_generate pkt sc.seed_current mss_idx
      if ¬ 14 ≤ f.length then (.pass, w, f)
      else
        let l4_off := pkt.l4_offset
        if l4_off < 14 ∨ 1500 < l4_off then (.pass, w, f)
        else
          match parseL3Start f with
          | none => (.pass, w, f)
          | some l3p =>
            let l3 := l3p.1
            if ¬ l3 + 20 ≤ f.length then (.pass, w, f)
            else if ¬ l4_off + 20 ≤ f.length then (.pass, w, f)
            else
              let g := swapMacAddrs f
              let saddr := be32 g (l3 + 12)
              let daddr := be32 g (l3 + 16)
              let g := setBe32 g (l3 + 12) daddr
              let g := setBe32 g (l3 + 16) saddr
              let g := setByte g (l3 + 8) 64
              let g := setBe16 g (l3 + 4) 0
              if 1500 < l4_off then (.pass, w, g)
              else if ¬ l4_off + 20 ≤ g.length then (.pass, w, g)
              else
                let sport := be16 g l4_off
                let dport := be16 g (l4_off + 2)
                let g := setBe16 g l4_off dport
                let g := setBe16 g (l4_off + 2) sport
                let g := setBe32 g (l4_off + 8)
                           ((be32 g (l4_off + 4) + 1) % u32mod)
                let g := setBe32 g (l4_off + 4) cookie
                let g := setByte g (l4_off + 13)
                           ((byteAt g (l4_off + 13) &&& 0xC0) ||| 0x12)
                let g := setBe16 g (l4_off + 14) 65535
                if ¬ 14 + 20 ≤ g.length then (.pass, w, g)
                else
                  let g := setLe16 g 24 0
                  let csum := ipChecksumWords g
                    [0, 1, 2, 3, 4, 5, 6, 7, 8, 9]
                  let g := setLe16 g 24 (csum_fold csum)
                  if 1500 < l4_off then (.pass, w, g)
                  else if ¬ l4_off + 20 ≤ g.length then (.pass, w, g)
                  else
                    let g := setBe16 g (l4_off + 16) 0
                    let w := bumpStat w fun s =>
                      { s with syn_cookies_sent := s.syn_cookies_sent + 1 }
                    (.tx, w, g)
  else if pkt.tcp_flags &&& (TCP_FLAG_SYN ||| TCP_FLAG_ACK) = TCP_FLAG_ACK
  then
    let ct_key : CtKey :=
      ⟨pkt.src_ip, pkt.dst_ip, pkt.src_port, pkt.dst_port, IPPROTO_TCP⟩
    let ct := w.conntrack ct_key
    let tracked : Bool := match ct with
      | some c => CT_STATE_ESTABLISHED ≤ c.state
      | none => false
    if tracked then (.pass, w, f)
    else if syn_cookie_validate w pkt pkt.tcp_ack_seq = 1 then
      let new_ct : CtEntry :=
        { last_seen_ns := now_ns, packets_fwd := 1, bytes_fwd := pkt.pkt_len,
          state := CT_STATE_ESTABLISHED, flags := CT_FLAG_SYN_COOKIE_VERIFIED }
      let w := { w with conntrack := updFn w.conntrack ct_key new_ct }
      let w := bumpStat w fun s =>
        { s with syn_cookies_validated := s.syn_cookies_validated + 1 }
      (.pass, w, f)
    else
      match ct with
      | none =>
        let w := bumpStat w fun s =>
          { s with syn_cookies_failed := s.syn_cookies_failed + 1 }
        (.drop, emit_event w pkt ATTACK_SYN_FLOOD 1 DROP_SYN_FLOOD 0 0, f)
      | some _ => (.pass, w, f)
  else (.pass, w, f)

/-! ## ACK flood (ack_flood.h) -/

def ack_flood_check (pkt : PacketCtx) (w : World) (now_ns : Nat) :
    Verdict × World :=
  if pkt.ip_proto ≠ IPPROTO_TCP then (.pass, w)
  else if pkt.tcp_flags ≠ TCP_FLAG_ACK then (.pass, w)
  else if get_config w CFG_CONNTRACK_ENABLE = 0 then (.pass, w)
  else
    let key : CtKey :=
      ⟨pkt.src_ip, pkt.dst_ip, pkt.src_port, pkt.dst_port, IPPROTO_TCP⟩
    match w.conntrack key with
    | some ct =>
      let ct := { ct with
        last_seen_ns := now_ns,
        packets_fwd := (ct.packets_fwd + 1) % u32mod,
        bytes_fwd := ct.bytes_fwd + pkt.pkt_len }
      (.pass, { w with conntrack := updFn w.conntrack key ct })
    | none =>
      let rkey : CtKey :=
        ⟨pkt.dst_ip, pkt.src_ip, pkt.dst_port, pkt.src_port, IPPROTO_TCP⟩
      match w.conntrack rkey with
      | some ct =>
        let ct := { ct with
        last_seen_ns := now_ns,
          packets_rev := (ct.packets_rev + 1) % u32mod,
          bytes_rev := ct.bytes_rev + pkt.pkt_len }
        (.pass, { w with conntrack := updFn w.conntrack rkey ct })
      | none =>
        let w := bumpStat w fun s =>
          { s with ack_flood_dropped := s.ack_flood_dropped + 1 }
        (.drop, emit_event w pkt ATTACK_ACK_FLOOD 1 DROP_ACK_INVALID 0 0)

/-! ## UDP flood / amplification (udp_flood.h) -/

def udp_flood_check (pkt : PacketCtx) (w : World) (now_ns : Nat) :
    Verdict × World :=
  if pkt.ip_proto ≠ IPPROTO_UDP then (.pass, w)
  else
    let src_port := pkt.src_port % u16mod
    let payload_len := pkt.l4_payload_len
    if src_port = 53 ∧ 512 < payload_len then
      let w := bumpStat w fun s =>
        { s with dns_amp_dropped := s.dns_amp_dropped + 1 }
      (.drop, emit_event w pkt ATTACK_DNS_AMP 1 DROP_DNS_AMP 0 0)
    else if src_port = 123 ∧ 468 < payload_len then
      let w := bumpStat w fun s =>
        { s with ntp_amp_dropped := s.ntp_amp_dropped + 1 }
      (.drop, emit_event w pkt ATTACK_NTP_AMP 1 DROP_NTP_AMP 0 0)
    else if src_port = 1900 ∧ 256 < payload_len then
      let w := bumpStat w fun s =>
        { s with udp_flood_dropped := s.udp_flood_dropped + 1 }
      (.drop, emit_event w pkt ATTACK_SSDP_AMP 1 DROP_UDP_FLOOD 0 0)
    else if src_port = 11211 ∧ 1400 < payload_len then
      let w := bumpStat w fun s =>
        { s with udp_flood_dropped := s.udp_flood_dropped + 1 }
      (.drop, emit_event w pkt ATTACK_MEMCACHED_AMP 1 DROP_UDP_FLOOD 0 0)
    else if (src_port = 19 ∨ src_port = 389 ∨ src_port = 161) ∧
        256 < payload_len then
      let w := bumpStat w fun s =>
        { s with udp_flood_dropped := s.udp_flood_dropped + 1 }
      (.drop, emit_event w pkt ATTACK_UDP_FLOOD 1 DROP_UDP_FLOOD 0 0)
    else
      match w.port_proto pkt.src_port with
      | some pf =>
        if pf ≠ 0 ∧ 512 < payload_len then
          let w := bumpStat w fun s =>
            { s with udp_flood_dropped := s.udp_flood_dropped + 1 }
          (.drop, emit_event w pkt ATTACK_UDP_FLOOD 1 DROP_UDP_FLOOD 0 0)
        else (.pass, w)
      | none => (.pass, w)

/-! ## ICMP flood (icmp_flood.h) -/

def icmp_flood_check (f : Frame) (pkt : PacketCtx) (w : World) :
    Verdict × World :=
  if pkt.ip_proto ≠ IPPROTO_ICMP then (.pass, w)
  else if pkt.l4_offset = 0 then (.pass, w)
  else if 1500 < pkt.l4_offset then (.pass, w)
  else if ¬ pkt.l4_offset + 8 ≤ f.length then (.pass, w)
  else
    let t := byteAt f pkt.l4_offset
    if 1024 < pkt.l4_payload_len + 8 then
      let w := bumpStat w fun s =>
        { s with icmp_flood_dropped := s.icmp_flood_dropped + 1 }
      (.drop, emit_event w pkt ATTACK_ICMP_FLOOD 1 DROP_ICMP_FLOOD 0 0)
    else if t ≠ 0 ∧ t ≠ 3 ∧ t ≠ 8 ∧ t ≠ 11 then
      let w := bumpStat w fun s =>
        { s with icmp_flood_dropped := s.icmp_flood_dropped + 1 }
      (.drop, emit_event w pkt ATTACK_ICMP_FLOOD 1 DROP_ICMP_FLOOD 0 0)
    else (.pass, w)

/-! ## Per-source rate limit (rate_limiter.h) -/

def rate_limit_check (pkt : PacketCtx) (w : World) (now_ns : Nat) :
    Verdict × World :=
  let cfg_key :=
    if pkt.ip_proto = IPPROTO_TCP then some CFG_SYN_RATE_PPS
    else if pkt.ip_proto = IPPROTO_UDP then some CFG_UDP_RATE_PPS
    else if pkt.ip_proto = IPPROTO_ICMP then some CFG_ICMP_RATE_PPS
    else none
  match cfg_key with
  | none => (.pass, w)
  | some key =>
    let rate_pps := get_config w key
    if rate_pps = 0 then (.pass, w)
    else
      match w.rate_limit pkt.src_ip with
      | none =>
        let new_rl : RateLimiter :=
          { tokens := rate_pps, last_refill_ns := now_ns,
            rate_pps := rate_pps, burst_size := (rate_pps * 2) % u64mod }
        (.pass, { w with rate_limit :=
                    updNoexist w.rate_limit pkt.src_ip new_rl })
      | some rl =>
        let rl := { rl with rate_pps := rate_pps,
                            burst_size := (rate_pps * 2) % u64mod }
        let res := token_bucket_consume rl now_ns 1
        let w := { w with rate_limit := updFn w.rate_limit pkt.src_ip res.2 }
        if res.1 = 1 then (.pass, w)
        else
          let w := bumpStat w fun s =>
            { s with rate_limited := s.rate_limited + 1 }
          (.drop, emit_event w pkt ATTACK_NONE 1 DROP_RATE_LIMIT 0 0)

/-! ## Global rate limit (rate_limiter.h global_rate_check) -/

def global_rate_check (pkt : PacketCtx) (w : World) (now_ns : Nat) :
    Verdict × World :=
  let pps_limit := get_config w CFG_GLOBAL_PPS_LIMIT
  let bps_limit := get_config w CFG_GLOBAL_BPS_LIMIT
  if pps_limit = 0 ∧ bps_limit = 0 then (.pass, w)
  else
    let r1 : Verdict × World :=
      if 0 < pps_limit then
        match w.global_rate 0 with
        | none => (.pass, w)
        | some rl =>
          let rl := { rl with rate_pps := pps_limit,
                              burst_size := (pps_limit * 2) % u64mod }
          let res := token_bucket_consume rl now_ns 1
          let w1 := { w with global_rate := updFn w.global_rate 0 res.2 }
          if res.1 = 0 then
            (.drop, bumpStat w1 fun s =>
              { s with rate_limited := s.rate_limited + 1 })
          else (.pass, w1)
      else (.pass, w)
    if r1.1 = .drop then r1
    else
      let w := r1.2
      if 0 < bps_limit then
        match w.global_rate 1 with
        | none => (.pass, w)
        | some rl =>
          let rl := { rl with rate_pps := bps_limit / 8,
                              burst_size := ((bps_limit / 8) * 2) % u64mod }
          let res := token_bucket_consume rl now_ns pkt.pkt_len
          let w1 := { w with global_rate := updFn w.global_rate 1 res.2 }
          if res.1 = 0 then
            (.drop, bumpStat w1 fun s =>
              { s with rate_limited := s.rate_limited + 1 })
          else (.pass, w1)
      else (.pass, w)

/-! ## Conntrack update (conntrack.h) -/

def conntrack_tcp_state_update (ct : CtEntry) (tcp_flags : Nat)
    (is_fwd : Bool) : CtEntry :=
  if ct.state = CT_STATE_NEW then
    if tcp_flags &&& TCP_FLAG_SYN ≠ 0 then
      { ct with state := CT_STATE_SYN_SENT }
    else ct
  else if ct.state = CT_STATE_SYN_SENT then
    if tcp_flags &&& (TCP_FLAG_SYN ||| TCP_FLAG_ACK) =
         TCP_FLAG_SYN ||| TCP_FLAG_ACK ∧ ¬ is_fwd then
      { ct with state := CT_STATE_SYN_RECV }
    else ct
  else if ct.state = CT_STATE_SYN_RECV then
    if tcp_flags &&& TCP_FLAG_ACK ≠ 0 ∧ is_fwd then
      { ct with state := CT_STATE_ESTABLISHED }
    else ct
  else if ct.state = CT_STATE_ESTABLISHED then
    let ct := if tcp_flags &&& TCP_FLAG_FIN ≠ 0 then
                { ct with state := CT_STATE_FIN_WAIT }
              else ct
    if tcp_flags &&& TCP_FLAG_RST ≠ 0 then
      { ct with state := CT_STATE_CLOSED }
    else ct
  else if ct.state = CT_STATE_FIN_WAIT then
    let ct := if tcp_flags &&& TCP_FLAG_FIN ≠ 0 ∧ ¬ is_fwd then
                { ct with state := CT_STATE_CLOSED }
              else ct
    if tcp_flags &&& TCP_FLAG_RST ≠ 0 then
      { ct with state := CT_STATE_CLOSED }
    else ct
  else ct

def conntrack_update (pkt : PacketCtx) (w : World) (now_ns : Nat) : World :=
  if get_config w CFG_CONNTRACK_ENABLE = 0 then w
  else
    let key : CtKey :=
      ⟨pkt.src_ip, pkt.dst_ip, pkt.src_port, pkt.dst_port, pkt.ip_proto⟩
    match w.conntrack key with
    | some ct =>
      let ct := { ct with
        last_seen_ns := now_ns,
        packets_fwd := (ct.packets_fwd + 1) % u32mod,
        bytes_fwd := ct.bytes_fwd + pkt.pkt_len }
      let ct := if pkt.ip_proto = IPPROTO_TCP then
                  conntrack_tcp_state_update ct pkt.tcp_flags true
                else ct
      { w with conntrack := updFn w.conntrack key ct }
    | none =>
      let rkey : CtKey :=
        ⟨pkt.dst_ip, pkt.src_ip, pkt.dst_port, pkt.src_port, pkt.ip_proto⟩
      match w.conntrack rkey with
      | some ct =>
        let ct := { ct with
        last_seen_ns := now_ns,
          packets_rev := (ct.packets_rev + 1) % u32mod,
          bytes_rev := ct.bytes_rev + pkt.pkt_len }
        let ct := if pkt.ip_proto = IPPROTO_TCP then
                    conntrack_tcp_state_update ct pkt.tcp_flags false
                  else ct
        if pkt.ip_proto ≠ IPPROTO_TCP ∧ ct.state = CT_STATE_NEW then
          let ct := { ct with state := CT_STATE_ESTABLISHED }
          let w := { w with conntrack := updFn w.conntrack rkey ct }
          bumpStat w fun s =>
            { s with conntrack_established := s.conntrack_established + 1 }
        else { w with conntrack := updFn w.conntrack rkey ct }
      | none =>
        let new_ct : CtEntry :=
          { last_seen_ns := now_ns, packets_fwd := 1,
            bytes_fwd := pkt.pkt_len, state := CT_STATE_NEW }
        let w := { w with conntrack := updNoexist w.conntrack key new_ct }
        bumpStat w fun s =>
          { s with conntrack_new := s.conntrack_new + 1 }

/-! ## The pipeline (xdp_main.c) -/

/-- Stages 2-18 of xdp_ddos_scrubber: the verdict walk after a successful
parse and the RX statistics update, with the per-stage drop handling of
xdp_main.c (which calls stats_drop for some stages and not for others). -/
def scrub_stages (f : Frame) (pkt : PacketCtx) (w : World) (now_ns : Nat) :
    Verdict × World × Frame :=
  let r := acl_check pkt w
  if r.1 = .drop then (.drop, r.2, f)
  else
  let r := threat_intel_check pkt r.2
  if r.1 = .drop then (.drop, stats_drop r.2 pkt.pkt_len, f)
  else
  let r := geoip_check pkt r.2
  if r.1 = .drop then (.drop, stats_drop r.2 pkt.pkt_len, f)
  else
  let r := reputation_check pkt r.2 now_ns
  if r.1 = .drop then (.drop, stats_drop r.2 pkt.pkt_len, f)
  else
  let r := fragment_check f pkt r.2
  if r.1 = .drop then (.drop, r.2, f)
  else
  let r := fingerprint_check f pkt r.2
  if r.1 = .drop then (.drop, r.2, f)
  else
  let r := payload_match_check f pkt r.2
  if r.1 = .drop then (.drop, stats_drop r.2 pkt.pkt_len, f)
  else
  let r := proto_validate f pkt r.2 now_ns
  if r.1 = .drop then (.drop, stats_drop r.2 pkt.pkt_len, f)
  else
  let rs := syn_flood_check f pkt r.2 now_ns
  if rs.1 = .tx then (.tx, stats_tx rs.2.1 pkt.pkt_len, rs.2.2)
  else if rs.1 = .drop then (.drop, stats_drop rs.2.1 pkt.pkt_len, rs.2.2)
  else
  let f := rs.2.2
  let r := ack_flood_check pkt rs.2.1 now_ns
  if r.1 = .drop then (.drop, stats_drop r.2 pkt.pkt_len, f)
  else
  let r := udp_flood_check pkt r.2 now_ns
  if r.1 = .drop then (.drop, stats_drop r.2 pkt.pkt_len, f)
  else
  let r := icmp_flood_check f pkt r.2
  if r.1 = .drop then (.drop, stats_drop r.2 pkt.pkt_len, f)
  else
  let r := rate_limit_check pkt r.2 now_ns
  if r.1 = .drop then (.drop, stats_drop r.2 pkt.pkt_len, f)
  else
  let r := global_rate_check pkt r.2 now_ns
  if r.1 = .drop then (.drop, stats_drop r.2 pkt.pkt_len, f)
  else
  let w := conntrack_update pkt r.2 now_ns
  (.pass, stats_tx w pkt.pkt_len, f)

/-- xdp_ddos_scrubber (xdp_main.c): the full program on one frame.  On a
parse failure the event is emitted with the packet context as left by the
failed parser, modelled here by the zero-initialised context. -/
def xdp_ddos_scrubber (f : Frame) (w : World) : Verdict × World × Frame :=
  let now_ns := w.now_ns
  if get_config w CFG_ENABLED = 0 then (.pass, w, f)
  else
    match parse_packet f with
    | none =>
      let w := stats_drop w 0
      (.drop, emit_event w {} ATTACK_NONE 1 DROP_PARSE_ERROR 0 0, f)
    | some pkt =>
      let w := stats_rx w pkt.pkt_len
      scrub_stages f pkt w now_ns

/-! ## Concrete fixtures for witnesses and counterexamples -/

/-- A world with every map empty, all configuration keys zero, and the
per-CPU statistics slot present. -/
def emptyWorld : World :=
  { now_ns := 0, config := fun _ => 0, whitelist := fun _ => none,
    blacklist := fun _ => none, threat_intel := fun _ => none,
    geoip := fun _ => none, geoip_policy := fun _ => none,
    reputation := fun _ => none, port_scan := fun _ => none,
    rate_limit := fun _ => none, adaptive_rate := fun _ => none,
    global_rate := fun _ => none, conntrack := fun _ => none,
    syn_cookie := none, attack_sigs := fun _ => none,
    attack_sig_count := none, payload_rules := fun _ => none,
    payload_rule_count := none, port_proto := fun _ => none,
    stats := some {}, events := [] }

/-- Ethernet/IPv4(10.0.0.1 → 192.168.1.1, proto TCP)/TCP(SYN, 12345 → 80):
the frame of spec scenario S1. -/
def synFrame : Frame :=
  [0x22, 0x22, 0x22, 0x22, 0x22, 0x22, 0x11, 0x11, 0x11, 0x11, 0x11, 0x11,
   0x08, 0x00,
   0x45, 0x00, 0x00, 0x28, 0x00, 0x00, 0x00, 0x00, 0x40, 0x06, 0x00, 0x00,
   10, 0, 0, 1, 192, 168, 1, 1,
   0x30, 0x39, 0x00, 0x50, 0, 0, 0x03, 0xE8, 0, 0, 0, 0, 0x50, 0x02,
   0xFF, 0xFF, 0, 0, 0, 0]

/-- The same frame with the More-Fragments bit set in the IPv4 header. -/
def fragFrame : Frame :=
  [0x22, 0x22, 0x22, 0x22, 0x22, 0x22, 0x11, 0x11, 0x11, 0x11, 0x11, 0x11,
   0x08, 0x00,
   0x45, 0x00, 0x00, 0x28, 0x00, 0x00, 0x20, 0x00, 0x40, 0x06, 0x00, 0x00,
   10, 0, 0, 1, 192, 168, 1, 1,
   0x30, 0x39, 0x00, 0x50, 0, 0, 0x03, 0xE8, 0, 0, 0, 0, 0x50, 0x02,
   0xFF, 0xFF, 0, 0, 0, 0]

/-! ## C2 -/

/-- C2 counterexample world: scrubber enabled, source 10.0.0.1
whitelisted, every optional module disabled. -/
def wWhitelist : World :=
  { emptyWorld with
    config := fun k => if k = CFG_ENABLED then 1 else 0,
    whitelist := fun a => if a = 0x0A000001 then some 1 else none }

/-! ## C1 -/

/-- C1 world: SYN rate 1000 pps configured, an adaptive override of
1 pps installed for source 10.0.0.1, and an existing empty bucket for that
source. -/
def wOverride : World :=
  { emptyWorld with
    config := fun k =>
      if k = CFG_ENABLED then 1 else if k = CFG_SYN_RATE_PPS then 1000
      else 0,
    adaptive_rate := fun a => if a = 0x0A000001 then some 1 else none,
    rate_limit := fun a =>
      if a = 0x0A000001 then
        some { tokens := 0, last_refill_ns := 0, rate_pps := 1000,
               burst_size := 2000 }
      else none }

def pktTcpFromOverridden : PacketCtx := { ip_proto := 6, src_ip := 0x0A000001 }

/-! ## C4 -/

/-- A bucket with rate_pps = 0, the unlimited sentinel. -/
def rlZeroRate : RateLimiter := { tokens := 5, rate_pps := 0, burst_size := 4 }

/-- A 2-pps bucket used for the C4 witness. -/
def rlTwoPps : RateLimiter :=
  { tokens := 1, last_refill_ns := 0, rate_pps := 2, burst_size := 4 }

/-! ## C10 -/

/-- Iterates port_scan_detect n times for one source, destination port and
instant, returning the penalty of the last call and the final world. -/
def port_scan_run (src dport now : Nat) (w : World) : Nat → Nat × World
  | 0 => (0, w)
  | n + 1 =>
    port_scan_detect (port_scan_run src dport now w n).2 src dport now

/-- C10 world: a tracking entry for source 1 at 20 distinct ports. -/
def wScan : World :=
  { emptyWorld with
    port_scan := fun a =>
      if a = 1 then some { window_start_ns := 5, distinct_ports := 20 }
      else none }

/-! ## C5 -/

/-- The operations the program performs on reputation state: a penalty
from another stage (reputation_penalize) and a pipeline pass through
reputation_check (which creates entries, decays, applies the port-scan
penalty and blocks). -/
inductive RepOp where
  | opPenalize (src weight now : Nat)
  | opCheck (pkt : PacketCtx) (now : Nat)
deriving DecidableEq

def applyRepOp (w : World) : RepOp → World
  | .opPenalize src weight now => reputation_penalize w src weight now
  | .opCheck pkt now => (reputation_check pkt w now).2

def applyRepOps (w : World) (l : List RepOp) : World := l.foldl applyRepOp w

/-- The reputation-score bound of the spec: every stored score is at most
1000 (scores are unsigned, so 0 ≤ score holds by type). -/
def repScoreInv (w : World) : Prop :=
  ∀ ip rep, w.reputation ip = some rep → rep.score ≤ 1000

/-- C5 world: reputation enabled over the empty maps. -/
def wRepEnabled : World :=
  { emptyWorld with
    config := fun k =>
      if k = CFG_ENABLED ∨ k = CFG_REPUTATION_ENABLE then 1 else 0 }

/-- C5 op list: a port-scan-weight penalty, a pipeline check, and a large
950-point penalty on the same source. -/
def repOpsW : List RepOp :=
  [RepOp.opPenalize 9 REP_WEIGHT_PORT_SCAN 0,
   RepOp.opCheck { src_ip := 9, dst_port := 80 } 5,
   RepOp.opPenalize 9 950 6]

/-- A 60-byte all-zero frame (payload container for the C9 witness). -/
def zeroFrame60 : Frame := List.replicate 60 0

/-- Ethernet/IPv4(10.0.0.1 → 192.168.1.1, TCP)/TCP(pure ACK, 12345 → 80):
synFrame with the ACK flag instead of SYN. -/
def ackFrame : Frame :=
  [0x22, 0x22, 0x22, 0x22, 0x22, 0x22, 0x11, 0x11, 0x11, 0x11, 0x11, 0x11,
   0x08, 0x00,
   0x45, 0x00, 0x00, 0x28, 0x00, 0x00, 0x00, 0x00, 0x40, 0x06, 0x00, 0x00,
   10, 0, 0, 1, 192, 168, 1, 1,
   0x30, 0x39, 0x00, 0x50, 0, 0, 0x03, 0xE8, 0, 0, 0, 0, 0x50, 0x10,
   0xFF, 0xFF, 0, 0, 0, 0]

/-- The packet context the parser produces for ackFrame. -/
def pktAck : PacketCtx := (parse_packet ackFrame).getD {}

/-- C7 world: TCP-state validation and protocol validation enabled. -/
def wC7dead : World :=
  { emptyWorld with
    config := fun k =>
      if k = CFG_TCP_STATE_ENABLE ∨ k = CFG_PROTO_VALID_ENABLE then 1
      else 0 }

/-! ## C9: dropped_packets accounting -/

/-- The per-core dropped_packets counter, read as 0 when the statistics
slot is absent. -/
def droppedCount (w : World) : Nat :=
  match w.stats with
  | some s => s.dropped_packets
  | none => 0

/-- One stage call's effect on dropped_packets: the counter moves by `k`
exactly on a drop verdict with the statistics slot present, and the slot's
presence is unchanged. -/
def StageStat (r : Verdict × World) (w : World) (k : Nat) : Prop :=
  droppedCount r.2 = droppedCount w +
      (if r.1 = Verdict.drop ∧ w.stats.isSome = true then k else 0) ∧
    r.2.stats.isSome = w.stats.isSome

/-- The world after stage 2 (ACL) of the pipeline. -/
def c9w1 (pkt : PacketCtx) (w : World) : World := (acl_check pkt w).2

/-- The world after stage 3 (threat intel). -/
def c9w2 (pkt : PacketCtx) (w : World) : World :=
  (threat_intel_check pkt (c9w1 pkt w)).2

/-- The world after stage 4 (GeoIP). -/
def c9w3 (pkt : PacketCtx) (w : World) : World :=
  (geoip_check pkt (c9w2 pkt w)).2

/-- The world after stage 5 (reputation). -/
def c9w4 (pkt : PacketCtx) (w : World) (now : Nat) : World :=
  (reputation_check pkt (c9w3 pkt w) now).2

/-- The world after stage 6 (fragment). -/
def c9w5 (f : Frame) (pkt : PacketCtx) (w : World) (now : Nat) : World :=
  (fragment_check f pkt (c9w4 pkt w now)).2

/-- The world after stage 7 (fingerprint). -/
def c9w6 (f : Frame) (pkt : PacketCtx) (w : World) (now : Nat) : World :=
  (fingerprint_check f pkt (c9w5 f pkt w now)).2

/-- The world after stage 8 (payload match). -/
def c9w7 (f : Frame) (pkt : PacketCtx) (w : World) (now : Nat) : World :=
  (payload_match_check f pkt (c9w6 f pkt w now)).2

/-- C9 world: source 5 on the blacklist. -/
def wC9blk : World :=
  { emptyWorld with blacklist := fun a => if a = 5 then some 1 else none }

/-- C9 world: threat intel enabled, drop-action entry for source 5. -/
def wC9threat : World :=
  { emptyWorld with
    config := fun k => if k = CFG_THREAT_INTEL_EN then 1 else 0,
    threat_intel := fun a =>
      if a = 5 then some { confidence := 100, action := 0 } else none }

/-- C9 world: protocol validation enabled, everything else off. -/
def wC9mem : World :=
  { emptyWorld with
    config := fun k => if k = CFG_PROTO_VALID_ENABLE then 1 else 0 }

/-- C9 packet: generic packet from source 5. -/
def pktC9 : PacketCtx := { src_ip := 5 }

/-- C9 packet: inbound UDP to the memcached port with a payload. -/
def pktC9mem : PacketCtx :=
  { src_ip := 5, ip_proto := IPPROTO_UDP, dst_port := 11211,
    payload_offset := 42, l4_payload_len := 10 }

/-- C3 cookie context: an arbitrary current seed. -/
def scC3 : SynCookieCtx := { seed_current := 0xABCD1234, seed_previous := 7 }

/-- C3 world: SYN cookies enabled with scC3 installed. -/
def wC3 : World :=
  { emptyWorld with
    config := fun k => if k = CFG_SYN_COOKIE_ENABLE then 1 else 0,
    syn_cookie := some scC3 }

/-- C3 rotated context: the old current seed moved to previous. -/
def scC3rot : SynCookieCtx :=
  { seed_current := 99, seed_previous := scC3.seed_current }

/-- C3 world after one seed rotation. -/
def wC3rot : World := { emptyWorld with syn_cookie := some scC3rot }

/-- C3 packet: the parsed view of synFrame with the L4 header at 34. -/
def pktC3 : PacketCtx :=
  { ip_proto := IPPROTO_TCP, src_ip := 0x0A000001, dst_ip := 0xC0A80101,
    src_port := 12345, dst_port := 80, tcp_flags := TCP_FLAG_SYN,
    l4_ptr := some 34, l4_offset := 34 }

/-! ## Theorems -/

/-! ## C8 -/

/-- C8: for every input frame, if the CFG_ENABLED config value is 0 the
program returns PASS and modifies no shared state and no frame byte: the
world and the frame are returned exactly as given.  The enabled check in
xdp_ddos_scrubber precedes the statistics lookup, the parser and every
stage, so no statistics counter, no map entry, no event and no frame byte
is touched. -/
theorem c8_disabled_pass_no_effect (f : Frame) (w : World)
    (h : get_config w CFG_ENABLED = 0) :
    xdp_ddos_scrubber f w = (Verdict.pass, w, f) := by
  simp [xdp_ddos_scrubber, h]

/-- C8 witness: the scenario S1 frame against the all-zero configuration. -/
theorem c8_disabled_pass_no_effect_witness :
    xdp_ddos_scrubber synFrame emptyWorld =
      (Verdict.pass, emptyWorld, synFrame) :=
  c8_disabled_pass_no_effect synFrame emptyWorld rfl

/-- C2 counterexample: a fragment from the whitelisted source 10.0.0.1 is
dropped by the pipeline, so a whitelist hit does not make the packet
bypass the subsequent DROP-capable stages. -/
theorem c2_whitelisted_fragment_dropped :
    wWhitelist.whitelist 0x0A000001 = some 1 ∧
    (parse_packet fragFrame).map PacketCtx.src_ip = some 0x0A000001 ∧
    (xdp_ddos_scrubber fragFrame wWhitelist).1 = Verdict.drop := by
  refine ⟨rfl, by decide, by decide⟩

/-- C2 (amended): a whitelist hit only short-circuits the ACL stage
itself: acl_check returns PASS without consulting the blacklist and
without touching any state, and the packet then continues through the
remaining stages (which may still drop it) on its way to conntrack. -/
theorem c2_whitelist_acl_passes (pkt : PacketCtx) (w : World) (v : Nat)
    (h : w.whitelist pkt.src_ip = some v) :
    acl_check pkt w = (Verdict.pass, w) := by
  simp [acl_check, h]

/-- C2 witness: the whitelisted fragment packet passes the ACL stage of
the counterexample world unchanged. -/
theorem c2_whitelist_acl_passes_witness :
    acl_check { src_ip := 0x0A000001 } wWhitelist =
      (Verdict.pass, wWhitelist) :=
  c2_whitelist_acl_passes { src_ip := 0x0A000001 } wWhitelist 1 rfl

/-- C1: rate_limit_check never reads the adaptive override map.  With an
override of 1 pps installed for the source, the stage still loads the
protocol-default 1000 pps into the bucket and passes a packet after 1 ms
(refilling 1 token at 1000 pps), whereas the same bucket run at the
override rate of 1 pps refills nothing and the consume fails.  This
contradicts the source comments on adaptive_rate_map (maps.h) and in
threat_intel.h/geoip.h, which state that the rate limiter enforces the
override. -/
theorem c1_override_ignored_by_rate_limiter :
    wOverride.adaptive_rate pktTcpFromOverridden.src_ip = some 1 ∧
    (rate_limit_check pktTcpFromOverridden wOverride 1000000).1 =
      Verdict.pass ∧
    ((rate_limit_check pktTcpFromOverridden wOverride 1000000).2.rate_limit
        0x0A000001).map RateLimiter.rate_pps = some 1000 ∧
    (token_bucket_consume
        { tokens := 0, last_refill_ns := 0, rate_pps := 1, burst_size := 2 }
        1000000 1).1 = 0 := by
  refine ⟨rfl, by decide, by decide, by decide⟩

/-- C4 counterexample: with rate_pps = 0 the consume reports success (1)
while leaving tokens unchanged, so the consume step neither subtracts the
requested cost on success nor reports failure. -/
theorem c4_rate_zero_success_without_subtraction :
    (token_bucket_consume rlZeroRate 7 1).1 = 1 ∧
    (token_bucket_consume rlZeroRate 7 1).2.tokens = rlZeroRate.tokens ∧
    rlZeroRate.tokens ≠ rlZeroRate.tokens - 1 := by
  refine ⟨rfl, rfl, by decide⟩

/-- C4 (amended): when rate_pps = 0 the consume reports success and leaves
the bucket entirely unchanged (rate 0 is the unlimited sentinel);
otherwise, whenever the refill fires the refilled token count is clamped
to burst_size, and the consume subtracts exactly the requested cost and
reports success when the cost is covered by the post-refill tokens, or
leaves the tokens unchanged and reports failure otherwise. -/
theorem c4_token_bucket_invariant (rl : RateLimiter) (now_ns cost : Nat) :
    (rl.rate_pps = 0 → token_bucket_consume rl now_ns cost = (1, rl)) ∧
    (0 < u64sub now_ns rl.last_refill_ns * rl.rate_pps % u64mod /
        1000000000 →
      (token_bucket_refill rl now_ns).tokens ≤
        (token_bucket_refill rl now_ns).burst_size) ∧
    (rl.rate_pps ≠ 0 → cost ≤ (token_bucket_refill rl now_ns).tokens →
      (token_bucket_consume rl now_ns cost).1 = 1 ∧
      (token_bucket_consume rl now_ns cost).2.tokens =
        (token_bucket_refill rl now_ns).tokens - cost) ∧
    (rl.rate_pps ≠ 0 → (token_bucket_refill rl now_ns).tokens < cost →
      (token_bucket_consume rl now_ns cost).1 = 0 ∧
      (token_bucket_consume rl now_ns cost).2.tokens =
        (token_bucket_refill rl now_ns).tokens) := by
  refine ⟨fun h0 => by simp [token_bucket_consume, h0], fun hnew => ?_,
    fun hr hc => ?_, fun hr hc => ?_⟩
  · simp only [token_bucket_refill, if_pos hnew]
    exact Nat.min_le_right _ _
  · simp [token_bucket_consume, if_neg hr, hc]
  · simp [token_bucket_consume, if_neg hr, Nat.not_le.mpr hc,
      Nat.le_of_lt hc]

/-- C4 witness: the amended theorem at 2 pps over one elapsed second
(refill of 2 clamps 1+2 to the burst of 4; a 1-token consume succeeds with
exact subtraction; a 5-token consume fails leaving tokens unchanged), plus
the rate-0 sentinel case. -/
theorem c4_token_bucket_invariant_witness :
    token_bucket_consume rlZeroRate 7 1 = (1, rlZeroRate) ∧
    (token_bucket_refill rlTwoPps 1000000000).tokens ≤
      (token_bucket_refill rlTwoPps 1000000000).burst_size ∧
    ((token_bucket_consume rlTwoPps 1000000000 1).1 = 1 ∧
      (token_bucket_consume rlTwoPps 1000000000 1).2.tokens =
        (token_bucket_refill rlTwoPps 1000000000).tokens - 1) ∧
    ((token_bucket_consume rlTwoPps 1000000000 5).1 = 0 ∧
      (token_bucket_consume rlTwoPps 1000000000 5).2.tokens =
        (token_bucket_refill rlTwoPps 1000000000).tokens) :=
  ⟨(c4_token_bucket_invariant rlZeroRate 7 1).1 rfl,
   (c4_token_bucket_invariant rlTwoPps 1000000000 1).2.1 (by decide),
   (c4_token_bucket_invariant rlTwoPps 1000000000 1).2.2.1 (by decide)
     (by decide),
   (c4_token_bucket_invariant rlTwoPps 1000000000 5).2.2.2 (by decide)
     (by decide)⟩

/-! ## C6 -/

/-- C6: for every UDP packet, the UDP-flood stage drops exactly when one
of the six amplification conditions holds, and each drop appends a single
event carrying the attack type and drop reason the code assigns to that
condition (the registered-port condition is reported as generic UDP flood
and applies when no named-port condition fired first). -/
theorem c6_udp_flood_characterization (pkt : PacketCtx) (w : World)
    (now_ns : Nat) (hudp : pkt.ip_proto = IPPROTO_UDP) :
    ((udp_flood_check pkt w now_ns).1 = Verdict.drop ↔
      (pkt.src_port % u16mod = 53 ∧ 512 < pkt.l4_payload_len) ∨
      (pkt.src_port % u16mod = 123 ∧ 468 < pkt.l4_payload_len) ∨
      (pkt.src_port % u16mod = 1900 ∧ 256 < pkt.l4_payload_len) ∨
      (pkt.src_port % u16mod = 11211 ∧ 1400 < pkt.l4_payload_len) ∨
      ((pkt.src_port % u16mod = 19 ∨ pkt.src_port % u16mod = 389 ∨
          pkt.src_port % u16mod = 161) ∧ 256 < pkt.l4_payload_len) ∨
      ((∃ pf, w.port_proto pkt.src_port = some pf ∧ pf ≠ 0) ∧
          512 < pkt.l4_payload_len)) ∧
    (pkt.src_port % u16mod = 53 ∧ 512 < pkt.l4_payload_len →
      ∃ e, (udp_flood_check pkt w now_ns).2.events = w.events ++ [e] ∧
        e.attack_type = ATTACK_DNS_AMP ∧ e.drop_reason = DROP_DNS_AMP) ∧
    (pkt.src_port % u16mod = 123 ∧ 468 < pkt.l4_payload_len →
      ∃ e, (udp_flood_check pkt w now_ns).2.events = w.events ++ [e] ∧
        e.attack_type = ATTACK_NTP_AMP ∧ e.drop_reason = DROP_NTP_AMP) ∧
    (pkt.src_port % u16mod = 1900 ∧ 256 < pkt.l4_payload_len →
      ∃ e, (udp_flood_check pkt w now_ns).2.events = w.events ++ [e] ∧
        e.attack_type = ATTACK_SSDP_AMP ∧ e.drop_reason = DROP_UDP_FLOOD) ∧
    (pkt.src_port % u16mod = 11211 ∧ 1400 < pkt.l4_payload_len →
      ∃ e, (udp_flood_check pkt w now_ns).2.events = w.events ++ [e] ∧
        e.attack_type = ATTACK_MEMCACHED_AMP ∧
        e.drop_reason = DROP_UDP_FLOOD) ∧
    ((pkt.src_port % u16mod = 19 ∨ pkt.src_port % u16mod = 389 ∨
        pkt.src_port % u16mod = 161) ∧ 256 < pkt.l4_payload_len →
      ∃ e, (udp_flood_check pkt w now_ns).2.events = w.events ++ [e] ∧
        e.attack_type = ATTACK_UDP_FLOOD ∧ e.drop_reason = DROP_UDP_FLOOD) ∧
    ((∃ pf, w.port_proto pkt.src_port = some pf ∧ pf ≠ 0) ∧
        512 < pkt.l4_payload_len ∧
        ¬ ((pkt.src_port % u16mod = 53 ∧ 512 < pkt.l4_payload_len) ∨
           (pkt.src_port % u16mod = 123 ∧ 468 < pkt.l4_payload_len) ∨
           (pkt.src_port % u16mod = 1900 ∧ 256 < pkt.l4_payload_len) ∨
           (pkt.src_port % u16mod = 11211 ∧ 1400 < pkt.l4_payload_len) ∨
           ((pkt.src_port % u16mod = 19 ∨ pkt.src_port % u16mod = 389 ∨
               pkt.src_port % u16mod = 161) ∧ 256 < pkt.l4_payload_len)) →
      ∃ e, (udp_flood_check pkt w now_ns).2.events = w.events ++ [e] ∧
        e.attack_type = ATTACK_UDP_FLOOD ∧ e.drop_reason = DROP_UDP_FLOOD) :=
    by
  have hne : ¬ pkt.ip_proto ≠ IPPROTO_UDP := by simp [hudp]
  refine ⟨?_, ?_, ?_, ?_, ?_, ?_, ?_⟩
  · constructor
    · intro hd
      by_contra hnd
      simp only [not_or] at hnd
      obtain ⟨n1, n2, n3, n4, n5, n6⟩ := hnd
      rcases hpp : w.port_proto pkt.src_port with _ | pf
      · simp only [udp_flood_check, if_neg hne, if_neg n1, if_neg n2,
          if_neg n3, if_neg n4, if_neg n5, hpp] at hd
        exact absurd hd (by simp)
      · have n6a : ¬ (pf ≠ 0 ∧ 512 < pkt.l4_payload_len) := by
          rintro ⟨hnz, hlen⟩
          exact n6 ⟨⟨pf, hpp, hnz⟩, hlen⟩
        simp only [udp_flood_check, if_neg hne, if_neg n1, if_neg n2,
          if_neg n3, if_neg n4, if_neg n5, hpp, if_neg n6a] at hd
        exact absurd hd (by simp)
    · rintro (h | h | h | h | h | ⟨⟨pf, hpf, hnz⟩, hlen⟩)
      · simp only [udp_flood_check, if_neg hne, if_pos h]
      · have n1 : ¬ (pkt.src_port % u16mod = 53 ∧ 512 < pkt.l4_payload_len)
          := by omega
        simp only [udp_flood_check, if_neg hne, if_neg n1, if_pos h]
      · have n1 : ¬ (pkt.src_port % u16mod = 53 ∧ 512 < pkt.l4_payload_len)
          := by omega
        have n2 : ¬ (pkt.src_port % u16mod = 123 ∧ 468 < pkt.l4_payload_len)
          := by omega
        simp only [udp_flood_check, if_neg hne, if_neg n1, if_neg n2,
          if_pos h]
      · have n1 : ¬ (pkt.src_port % u16mod = 53 ∧ 512 < pkt.l4_payload_len)
          := by omega
        have n2 : ¬ (pkt.src_port % u16mod = 123 ∧ 468 < pkt.l4_payload_len)
          := by omega
        have n3 : ¬ (pkt.src_port % u16mod = 1900 ∧ 256 < pkt.l4_payload_len)
          := by omega
        simp only [udp_flood_check, if_neg hne, if_neg n1, if_neg n2,
          if_neg n3, if_pos h]
      · have n1 : ¬ (pkt.src_port % u16mod = 53 ∧ 512 < pkt.l4_payload_len)
          := by omega
        have n2 : ¬ (pkt.src_port % u16mod = 123 ∧ 468 < pkt.l4_payload_len)
          := by omega
        have n3 : ¬ (pkt.src_port % u16mod = 1900 ∧ 256 < pkt.l4_payload_len)
          := by omega
        have n4 : ¬ (pkt.src_port % u16mod = 11211 ∧
            1400 < pkt.l4_payload_len) := by omega
        simp only [udp_flood_check, if_neg hne, if_neg n1, if_neg n2,
          if_neg n3, if_neg n4, if_pos h]
      · by_cases c1 : pkt.src_port % u16mod = 53 ∧ 512 < pkt.l4_payload_len
        · simp only [udp_flood_check, if_neg hne, if_pos c1]
        by_cases c2 : pkt.src_port % u16mod = 123 ∧ 468 < pkt.l4_payload_len
        · simp only [udp_flood_check, if_neg hne, if_neg c1, if_pos c2]
        by_cases c3 : pkt.src_port % u16mod = 1900 ∧ 256 < pkt.l4_payload_len
        · simp only [udp_flood_check, if_neg hne, if_neg c1, if_neg c2,
            if_pos c3]
        by_cases c4 : pkt.src_port % u16mod = 11211 ∧
            1400 < pkt.l4_payload_len
        · simp only [udp_flood_check, if_neg hne, if_neg c1, if_neg c2,
            if_neg c3, if_pos c4]
        by_cases c5 : (pkt.src_port % u16mod = 19 ∨
            pkt.src_port % u16mod = 389 ∨ pkt.src_port % u16mod = 161) ∧
            256 < pkt.l4_payload_len
        · simp only [udp_flood_check, if_neg hne, if_neg c1, if_neg c2,
            if_neg c3, if_neg c4, if_pos c5]
        simp only [udp_flood_check, if_neg hne, if_neg c1, if_neg c2,
          if_neg c3, if_neg c4, if_neg c5, hpf,
          if_pos (⟨hnz, hlen⟩ : pf ≠ 0 ∧ 512 < pkt.l4_payload_len)]
  · rintro ⟨h53, hlen⟩
    simp only [udp_flood_check, if_neg hne, if_pos (⟨h53, hlen⟩ :
      pkt.src_port % u16mod = 53 ∧ 512 < pkt.l4_payload_len)]
    exact ⟨_, rfl, rfl, rfl⟩
  · rintro ⟨hp, hlen⟩
    have n1 : ¬ (pkt.src_port % u16mod = 53 ∧ 512 < pkt.l4_payload_len) := by
      omega
    simp only [udp_flood_check, if_neg hne, if_neg n1, if_pos (⟨hp, hlen⟩ :
      pkt.src_port % u16mod = 123 ∧ 468 < pkt.l4_payload_len)]
    exact ⟨_, rfl, rfl, rfl⟩
  · rintro ⟨hp, hlen⟩
    have n1 : ¬ (pkt.src_port % u16mod = 53 ∧ 512 < pkt.l4_payload_len) := by
      omega
    have n2 : ¬ (pkt.src_port % u16mod = 123 ∧ 468 < pkt.l4_payload_len) := by
      omega
    simp only [udp_flood_check, if_neg hne, if_neg n1, if_neg n2,
      if_pos (⟨hp, hlen⟩ :
        pkt.src_port % u16mod = 1900 ∧ 256 < pkt.l4_payload_len)]
    exact ⟨_, rfl, rfl, rfl⟩
  · rintro ⟨hp, hlen⟩
    have n1 : ¬ (pkt.src_port % u16mod = 53 ∧ 512 < pkt.l4_payload_len) := by
      omega
    have n2 : ¬ (pkt.src_port % u16mod = 123 ∧ 468 < pkt.l4_payload_len) := by
      omega
    have n3 : ¬ (pkt.src_port % u16mod = 1900 ∧ 256 < pkt.l4_payload_len) := by
      omega
    simp only [udp_flood_check, if_neg hne, if_neg n1, if_neg n2, if_neg n3,
      if_pos (⟨hp, hlen⟩ :
        pkt.src_port % u16mod = 11211 ∧ 1400 < pkt.l4_payload_len)]
    exact ⟨_, rfl, rfl, rfl⟩
  · rintro ⟨hp, hlen⟩
    have n1 : ¬ (pkt.src_port % u16mod = 53 ∧ 512 < pkt.l4_payload_len) := by
      omega
    have n2 : ¬ (pkt.src_port % u16mod = 123 ∧ 468 < pkt.l4_payload_len) := by
      omega
    have n3 : ¬ (pkt.src_port % u16mod = 1900 ∧ 256 < pkt.l4_payload_len) := by
      omega
    have n4 : ¬ (pkt.src_port % u16mod = 11211 ∧ 1400 < pkt.l4_payload_len) :=
      by omega
    simp only [udp_flood_check, if_neg hne, if_neg n1, if_neg n2, if_neg n3,
      if_neg n4, if_pos (⟨hp, hlen⟩ :
        (pkt.src_port % u16mod = 19 ∨ pkt.src_port % u16mod = 389 ∨
          pkt.src_port % u16mod = 161) ∧ 256 < pkt.l4_payload_len)]
    exact ⟨_, rfl, rfl, rfl⟩
  · rintro ⟨⟨pf, hpf, hnz⟩, hlen, hnone⟩
    simp only [not_or] at hnone
    obtain ⟨n1, n2, n3, n4, n5⟩ := hnone
    simp only [udp_flood_check, if_neg hne, if_neg n1, if_neg n2, if_neg n3,
      if_neg n4, if_neg n5, hpf]
    simp only [if_pos (⟨hnz, hlen⟩ : pf ≠ 0 ∧ 512 < pkt.l4_payload_len)]
    exact ⟨_, rfl, rfl, rfl⟩

/-- C6 witness: a DNS response of 600 payload bytes from source port 53
drops with the DNS amplification attack type and reason. -/
theorem c6_udp_flood_characterization_witness :
    (udp_flood_check { ip_proto := 17, src_port := 53, l4_payload_len := 600 }
        emptyWorld 0).1 = Verdict.drop ∧
    ∃ e, (udp_flood_check
        { ip_proto := 17, src_port := 53, l4_payload_len := 600 }
        emptyWorld 0).2.events = emptyWorld.events ++ [e] ∧
      e.attack_type = ATTACK_DNS_AMP ∧ e.drop_reason = DROP_DNS_AMP := by
  have h := c6_udp_flood_characterization
    { ip_proto := 17, src_port := 53, l4_payload_len := 600 } emptyWorld 0
    rfl
  exact ⟨h.1.mpr (Or.inl (by decide)), h.2.1 (by decide)⟩

theorem u64sub_self (a : Nat) (h : a < u64mod) : u64sub a a = 0 := by
  simp [u64sub, Nat.mod_eq_of_lt h]

/-- After k packets (1 ≤ k ≤ 20) to one fixed destination port ≥ 64 from
a source with no prior tracking entry, the entry holds distinct_ports = k
and an empty bitmap. -/
theorem port_scan_run_state_hi (src dport now : Nat) (w0 : World)
    (h0 : w0.port_scan src = none) (hp : 64 ≤ dport % u16mod)
    (hnow : now < u64mod) :
    ∀ k, 1 ≤ k → k ≤ 20 →
      (port_scan_run src dport now w0 k).2.port_scan src =
        some { window_start_ns := now, distinct_ports := k } := by
  have hp32 : ¬ dport % u16mod < 32 := by omega
  have hp64 : ¬ dport % u16mod < 64 := by omega
  intro k
  induction k with
  | zero => omega
  | succ n ih =>
    intro _ hle
    by_cases hn : n = 0
    · subst hn
      simp only [port_scan_run, port_scan_detect, h0, if_neg hp32,
        if_neg hp64, updNoexist, h0, updFn, if_pos rfl]
      simp
    · have hstate := ih (by omega) (by omega)
      have hmod : (n + 1) % u32mod = n + 1 := Nat.mod_eq_of_lt (by
        simp only [u32mod]; omega)
      have hwin : ¬ PORT_SCAN_WINDOW_NS < 0 := by omega
      have hth : ¬ PORT_SCAN_THRESHOLD < n + 1 := by
        simp only [PORT_SCAN_THRESHOLD]; omega
      simp only [port_scan_run, port_scan_detect, hstate, u64sub_self now
        hnow, if_neg hp32, if_neg hp64, hmod, if_neg hwin, if_neg hth,
        updFn, if_pos rfl]
      simp [hth, updFn]

/-- After any number of packets to one fixed destination port < 64 from a
source with no prior entry, distinct_ports stays at 1 with only that
port's bitmap bit set. -/
theorem port_scan_run_state_lo (src dport now : Nat) (w0 : World)
    (h0 : w0.port_scan src = none) (hp : dport % u16mod < 64)
    (hnow : now < u64mod) :
    ∀ n, 1 ≤ n →
      (port_scan_run src dport now w0 n).2.port_scan src =
        some { window_start_ns := now, distinct_ports := 1,
               port_bitmap0 :=
                 if dport % u16mod < 32 then
                   (1 <<< (dport % u16mod)) % u32mod
                 else 0,
               port_bitmap1 :=
                 if dport % u16mod < 32 then 0
                 else if dport % u16mod < 64 then
                   (1 <<< (dport % u16mod - 32)) % u32mod
                 else 0 } ∧
      (port_scan_run src dport now w0 n).1 = 0 := by
  have hwin : ¬ PORT_SCAN_WINDOW_NS < 0 := by omega
  have hshift : ∀ m, m < 32 → (1 <<< m) % u32mod = 1 <<< m := by
    intro m hm
    exact Nat.mod_eq_of_lt (by
      rw [Nat.shiftLeft_eq, one_mul, u32mod]
      exact Nat.pow_lt_pow_right (by omega) hm)
  have hbitne : ∀ m, m < 32 → (1 <<< m) % u32mod ≠ 0 := by
    intro m hm
    rw [hshift m hm, Nat.shiftLeft_eq, one_mul]
    exact pow_ne_zero m (by omega)
  intro n
  induction n with
  | zero => omega
  | succ n ih =>
    intro _
    by_cases hn : n = 0
    · subst hn
      constructor
      · simp only [port_scan_run, port_scan_detect, h0, updNoexist, updFn,
          if_pos rfl]
        simp
      · simp only [port_scan_run, port_scan_detect, h0]
    · obtain ⟨hstate, -⟩ := ih (by omega)
      by_cases h32 : dport % u16mod < 32
      · have hb := hbitne (dport % u16mod) h32
        refine ⟨?_, ?_⟩ <;>
          simp [port_scan_run, port_scan_detect, hstate,
            u64sub_self now hnow, h32, hb, updFn, PORT_SCAN_THRESHOLD,
            PORT_SCAN_WINDOW_NS]
      · have hb := hbitne (dport % u16mod - 32) (by omega)
        refine ⟨?_, ?_⟩ <;>
          simp [port_scan_run, port_scan_detect, hstate,
            u64sub_self now hnow, h32, hp, hb, updFn, PORT_SCAN_THRESHOLD,
            PORT_SCAN_WINDOW_NS]

/-- C10: in the port-scan detector, (1) for a source whose entry exists
and whose 10-second window has not expired, every packet to a destination
port ≥ 64 increments distinct_ports even if that port was already seen,
and the +70 penalty is returned exactly when the incremented count exceeds
the threshold of 20; (2) 21 packets to one fixed destination port ≥ 64
inside one window are enough to trigger the +70 penalty; (3) repeated
packets to one fixed destination port in 0-63 never trigger it. -/
theorem c10_port_scan_behaviour :
    (∀ (w : World) (src dport now : Nat) (ps : PortScanEntry),
      w.port_scan src = some ps →
      u64sub now ps.window_start_ns ≤ PORT_SCAN_WINDOW_NS →
      64 ≤ dport % u16mod →
      ∃ ps2, (port_scan_detect w src dport now).2.port_scan src = some ps2 ∧
        ps2.distinct_ports = (ps.distinct_ports + 1) % u32mod ∧
        ((port_scan_detect w src dport now).1 = REP_WEIGHT_PORT_SCAN ↔
          PORT_SCAN_THRESHOLD < ps2.distinct_ports)) ∧
    (∀ (w0 : World) (src dport now : Nat), w0.port_scan src = none →
      64 ≤ dport % u16mod → now < u64mod →
      (port_scan_run src dport now w0 21).1 = REP_WEIGHT_PORT_SCAN) ∧
    (∀ (w0 : World) (src dport now n : Nat), w0.port_scan src = none →
      dport % u16mod < 64 → now < u64mod →
      (port_scan_run src dport now w0 n).1 = 0) := by
  refine ⟨?_, ?_, ?_⟩
  · intro w src dport now ps hlook hwin hp
    have hp32 : ¬ dport % u16mod < 32 := by omega
    have hp64 : ¬ dport % u16mod < 64 := by omega
    have hnw : ¬ PORT_SCAN_WINDOW_NS < u64sub now ps.window_start_ns :=
      Nat.not_lt.mpr hwin
    by_cases hth : PORT_SCAN_THRESHOLD < (ps.distinct_ports + 1) % u32mod
    · refine ⟨{ ps with distinct_ports := (ps.distinct_ports + 1) % u32mod },
        ?_, rfl, ?_⟩
      · simp only [port_scan_detect, hlook, if_neg hnw, if_neg hp32,
          if_neg hp64, if_neg Bool.false_ne_true, if_pos hth, bumpStat,
          updFn, if_pos rfl]
        simp
      · simp only [port_scan_detect, hlook, if_neg hnw, if_neg hp32,
          if_neg hp64, if_neg Bool.false_ne_true, if_pos hth]
        simp [hth]
    · refine ⟨{ ps with distinct_ports := (ps.distinct_ports + 1) % u32mod },
        ?_, rfl, ?_⟩
      · simp only [port_scan_detect, hlook, if_neg hnw, if_neg hp32,
          if_neg hp64, if_neg Bool.false_ne_true, if_neg hth, updFn,
          if_pos rfl]
        simp
      · simp only [port_scan_detect, hlook, if_neg hnw, if_neg hp32,
          if_neg hp64, if_neg Bool.false_ne_true, if_neg hth]
        simp [REP_WEIGHT_PORT_SCAN, hth]
  · intro w0 src dport now h0 hp hnow
    have hstate := port_scan_run_state_hi src dport now w0 h0 hp hnow 20
      (by omega) (by omega)
    have hp32 : ¬ dport % u16mod < 32 := by omega
    have hp64 : ¬ dport % u16mod < 64 := by omega
    have hth : PORT_SCAN_THRESHOLD < (20 + 1) % u32mod := by
      simp only [PORT_SCAN_THRESHOLD, u32mod]; omega
    have h21 : port_scan_run src dport now w0 21 =
        port_scan_detect (port_scan_run src dport now w0 20).2 src dport now
      := rfl
    rw [h21]
    simp only [port_scan_detect, hstate, u64sub_self now hnow,
      if_neg (show ¬ PORT_SCAN_WINDOW_NS < 0 by omega), if_neg hp32,
      if_neg hp64, if_neg Bool.false_ne_true, if_pos hth]
  · intro w0 src dport now n h0 hp hnow
    match n with
    | 0 => rfl
    | n + 1 => exact
        (port_scan_run_state_lo src dport now w0 h0 hp hnow (n + 1)
          (by omega)).2

/-- C10 witness: the 21st repeat to port 8080 triggers the penalty, one
more packet to port 8080 on a 20-port entry increments to 21 and yields
the penalty, and 30 repeats to port 50 never do. -/
theorem c10_port_scan_behaviour_witness :
    (∃ ps2, (port_scan_detect wScan 1 8080 5).2.port_scan 1 = some ps2 ∧
      ps2.distinct_ports = (20 + 1) % u32mod ∧
      ((port_scan_detect wScan 1 8080 5).1 = REP_WEIGHT_PORT_SCAN ↔
        PORT_SCAN_THRESHOLD < ps2.distinct_ports)) ∧
    (port_scan_run 1 8080 5 emptyWorld 21).1 = REP_WEIGHT_PORT_SCAN ∧
    (port_scan_run 1 50 5 emptyWorld 30).1 = 0 :=
  ⟨c10_port_scan_behaviour.1 wScan 1 8080 5
      { window_start_ns := 5, distinct_ports := 20 } rfl (by decide)
      (by decide),
   c10_port_scan_behaviour.2.1 emptyWorld 1 8080 5 rfl (by decide)
     (by decide),
   c10_port_scan_behaviour.2.2 emptyWorld 1 50 5 30 rfl (by decide)
     (by decide)⟩

theorem rep_decay_score_le (rep : IpReputation) (n : Nat) :
    (rep_decay rep n).score ≤ rep.score := by
  unfold rep_decay
  split_ifs <;> try dsimp only
  all_goals try split_ifs <;> try dsimp only
  all_goals omega

theorem rep_apply_scan_score (rep : IpReputation) (p : Nat)
    (h : rep.score ≤ 1000) : (rep_apply_scan rep p).score ≤ 1000 := by
  unfold rep_apply_scan
  split_ifs <;> try dsimp only
  all_goals try split_ifs <;> try dsimp only
  all_goals omega

theorem port_scan_detect_reputation (w : World) (s d n : Nat) :
    (port_scan_detect w s d n).2.reputation = w.reputation := by
  unfold port_scan_detect
  rcases h : w.port_scan s with _ | ps <;>
    simp only [h] <;> split_ifs <;> rfl

theorem reputation_penalize_inv (w : World) (src weight now : Nat)
    (hw : repScoreInv w) (hweight : weight ≤ 1000) :
    repScoreInv (reputation_penalize w src weight now) := by
  unfold reputation_penalize
  split_ifs with hen
  · exact hw
  rcases h : w.reputation src with _ | rep
  · simp only [updNoexist, h]
    intro ip rep2 hl
    try dsimp only at hl
    simp only [updFn] at hl
    split at hl
    · cases hl
      exact hweight
    · exact hw ip rep2 hl
  · have h0 : rep.score ≤ 1000 := hw src rep h
    intro ip rep2 hl
    try dsimp only at hl
    simp only [updFn] at hl
    split at hl
    · split at hl <;> (cases hl; dsimp only; omega)
    · exact hw ip rep2 hl

set_option maxHeartbeats 1600000 in
theorem reputation_check_inv (pkt : PacketCtx) (w : World) (now : Nat)
    (hw : repScoreInv w) : repScoreInv ((reputation_check pkt w now).2) := by
  unfold reputation_check
  split_ifs with hen
  · exact hw
  rcases h : w.reputation pkt.src_ip with _ | rep
  · simp only [h]
    intro ip rep2 hl
    try dsimp only at hl
    rw [port_scan_detect_reputation] at hl
    simp only [updNoexist, h, updFn] at hl
    split at hl
    · cases hl
      dsimp only
      omega
    · exact hw ip rep2 hl
  · have h0 : rep.score ≤ 1000 := hw pkt.src_ip rep h
    simp only [h]
    split_ifs <;>
    · intro ip rep2 hl
      try dsimp only at hl
      try simp only [emit_event, stats_drop, bumpStat] at hl
      try dsimp only at hl
      try rw [port_scan_detect_reputation] at hl
      try simp only [updFn] at hl
      split at hl
      · cases hl
        try dsimp only
        first
          | exact h0
          | exact rep_apply_scan_score _ _
              (le_trans (rep_decay_score_le _ _) h0)
      · exact hw ip rep2 hl

/-- C5: along every sequence of reputation operations the program performs
(entry creation, penalties via reputation_penalize with the REP_WEIGHT_*
weights, decay and the port-scan penalty inside reputation_check, and
blocking), every stored score stays in [0, 1000].  Every prefix of an
operation list is itself an operation list, so the bound holds at every
intermediate read point; score is an unsigned field, so the lower bound
holds by type. -/
theorem c5_reputation_score_bounded (w : World) (ops : List RepOp)
    (hw : repScoreInv w)
    (hweights : ∀ src weight now, RepOp.opPenalize src weight now ∈ ops →
      weight ≤ 1000) :
    repScoreInv (applyRepOps w ops) := by
  induction ops generalizing w with
  | nil => exact hw
  | cons op rest ih =>
    have hstep : repScoreInv (applyRepOp w op) := by
      cases op with
      | opPenalize src weight now =>
        exact reputation_penalize_inv w src weight now hw
          (hweights src weight now (List.mem_cons_self _ _))
      | opCheck pkt now => exact reputation_check_inv pkt w now hw
    exact ih (applyRepOp w op) hstep
      (fun src weight now hm =>
        hweights src weight now (List.mem_cons_of_mem _ hm))

/-- C5 witness: the invariant after running the concrete op list. -/
theorem c5_reputation_score_bounded_witness :
    repScoreInv (applyRepOps wRepEnabled repOpsW) :=
  c5_reputation_score_bounded wRepEnabled repOpsW
    (fun ip rep h => Option.noConfusion h)
    (by
      intro src weight now h
      simp only [repOpsW, List.mem_cons, List.not_mem_nil, or_false] at h
      rcases h with h | h | h
      · cases h
        simp [REP_WEIGHT_PORT_SCAN]
      · exact absurd h (by simp)
      · cases h
        omega)

/-! ## C7 -/

set_option maxHeartbeats 1000000 in
/-- C7: the TCP state validator is unreachable on every packet the program
builds: parse_packet never assigns l4_offset (it stays 0 from the
zero-initialisation in xdp_main.c), tcp_state_validate returns PASS with
the world untouched whenever l4_offset = 0, and consequently a parsed
untracked pure ACK — which the claim requires to be dropped — passes both
tcp_state_validate and the proto_validate dispatcher with validation
enabled. -/
theorem c7_tcp_state_validator_unreachable :
    (∀ (f : Frame) (pkt : PacketCtx), parse_packet f = some pkt →
      pkt.l4_offset = 0) ∧
    (∀ (f : Frame) (pkt : PacketCtx) (w : World) (now : Nat),
      pkt.l4_offset = 0 →
      tcp_state_validate f pkt w now = (Verdict.pass, w)) ∧
    (parse_packet ackFrame = some pktAck ∧
      pktAck.ip_proto = IPPROTO_TCP ∧
      pktAck.l4_offset = 0 ∧
      pktAck.tcp_flags &&& (TCP_FLAG_SYN ||| TCP_FLAG_ACK) = TCP_FLAG_ACK ∧
      pktAck.tcp_flags &&& TCP_FLAG_RST = 0 ∧
      wC7dead.conntrack ⟨pktAck.src_ip, pktAck.dst_ip, pktAck.src_port,
        pktAck.dst_port, IPPROTO_TCP⟩ = none ∧
      get_config wC7dead CFG_TCP_STATE_ENABLE ≠ 0 ∧
      tcp_state_validate ackFrame pktAck wC7dead 0 =
        (Verdict.pass, wC7dead) ∧
      proto_validate ackFrame pktAck wC7dead 0 =
        (Verdict.pass, wC7dead)) := by
  refine ⟨?_, ?_, ?_⟩
  · intro f pkt h
    unfold parse_packet at h
    rcases hl3 : parseL3Start f with _ | lp <;> rw [hl3] at h
    · cases h
    · obtain ⟨l3, ep⟩ := lp
      dsimp only at h
      by_cases c1 : ep ≠ 2048
      · rw [if_pos c1] at h; cases h
      rw [if_neg c1] at h
      by_cases c2 : l3 + 20 ≤ List.length f
      swap
      · rw [if_neg c2] at h; cases h
      rw [if_pos c2] at h
      by_cases c3 : byteAt f l3 &&& 15 < 5
      · rw [if_pos c3] at h; cases h
      rw [if_neg c3] at h
      by_cases c4 : l3 + (byteAt f l3 &&& 15) * 4 ≤ List.length f
      swap
      · rw [if_neg c4] at h; cases h
      rw [if_pos c4] at h
      by_cases c5 : be16 f (l3 + 6) &&& 8191 ≠ 0
      · rw [if_pos c5] at h
        cases h
        rfl
      rw [if_neg c5] at h
      by_cases c6 : byteAt f (l3 + 9) = IPPROTO_TCP
      · rw [if_pos c6] at h
        by_cases c7 : l3 + (byteAt f l3 &&& 15) * 4 + 20 ≤ List.length f
        swap
        · rw [if_neg c7] at h; cases h
        rw [if_pos c7] at h
        by_cases c8 : (byteAt f (l3 + (byteAt f l3 &&& 15) * 4 + 12) >>> 4)
            * 4 < 20
        · rw [if_pos c8] at h; cases h
        rw [if_neg c8] at h
        cases h
        rfl
      rw [if_neg c6] at h
      by_cases c9 : byteAt f (l3 + 9) = IPPROTO_UDP
      · rw [if_pos c9] at h
        by_cases c10 : l3 + (byteAt f l3 &&& 15) * 4 + 8 ≤ List.length f
        swap
        · rw [if_neg c10] at h; cases h
        rw [if_pos c10] at h
        cases h
        rfl
      rw [if_neg c9] at h
      by_cases c11 : byteAt f (l3 + 9) = IPPROTO_ICMP
      · rw [if_pos c11] at h
        by_cases c12 : l3 + (byteAt f l3 &&& 15) * 4 + 8 ≤ List.length f
        swap
        · rw [if_neg c12] at h; cases h
        rw [if_pos c12] at h
        cases h
        rfl
      rw [if_neg c11] at h
      cases h
      rfl
  · intro f pkt w now h0
    unfold tcp_state_validate
    split_ifs <;> first | (exact absurd h0 (by assumption)) | rfl
  · exact ⟨rfl, by decide, by decide, by decide, by decide, rfl,
      by decide, rfl, rfl⟩

/-- C7 witness: the parsed pure ACK has l4_offset 0 and is passed by the
enabled TCP state validator. -/
theorem c7_tcp_state_validator_unreachable_witness :
    pktAck.l4_offset = 0 ∧
    tcp_state_validate ackFrame pktAck wC7dead 0 =
      (Verdict.pass, wC7dead) :=
  ⟨c7_tcp_state_validator_unreachable.1 ackFrame pktAck rfl,
   c7_tcp_state_validator_unreachable.2.1 ackFrame pktAck wC7dead 0
     (c7_tcp_state_validator_unreachable.1 ackFrame pktAck rfl)⟩

theorem droppedCount_stats_drop (w : World) (len : Nat)
    (h : w.stats.isSome = true) :
    droppedCount (stats_drop w len) = droppedCount w + 1 := by
  rcases hs : w.stats with _ | s
  · rw [hs] at h; cases h
  · simp [droppedCount, stats_drop, bumpStat, hs]

theorem stageStat_acl (pkt : PacketCtx) (w : World) :
    StageStat (acl_check pkt w) w 0 := by
  unfold acl_check
  rcases hwl : w.whitelist pkt.src_ip with _ | x <;> simp only [hwl]
  · rcases hbl : w.blacklist pkt.src_ip with _ | y <;> simp only [hbl]
    · simp [StageStat]
    · cases hstats : w.stats <;>
        simp [StageStat, droppedCount, bumpStat, emit_event, hstats]
  · simp [StageStat]

set_option maxHeartbeats 1000000 in
theorem stageStat_threat (pkt : PacketCtx) (w : World) :
    StageStat (threat_intel_check pkt w) w 1 := by
  unfold threat_intel_check
  by_cases h1 : get_config w CFG_THREAT_INTEL_EN = 0
  · simp [StageStat, h1]
  · rcases hti : w.threat_intel pkt.src_ip with _ | entry <;>
      simp only [if_neg h1, hti]
    · simp [StageStat]
    · rcases har : w.adaptive_rate pkt.src_ip with _ | ar <;>
        simp only [har] <;> split_ifs <;> cases hstats : w.stats <;>
        simp [StageStat, droppedCount, bumpStat, stats_drop, emit_event,
          hstats]

set_option maxHeartbeats 1000000 in
theorem stageStat_geoip (pkt : PacketCtx) (w : World) :
    StageStat (geoip_check pkt w) w 1 := by
  unfold geoip_check
  by_cases h1 : get_config w CFG_GEOIP_ENABLE = 0
  · simp [StageStat, h1]
  · rcases hg : w.geoip pkt.src_ip with _ | geo <;> simp only [if_neg h1, hg]
    · split_ifs <;> cases hstats : w.stats <;>
        simp [StageStat, droppedCount, bumpStat, stats_drop, emit_event,
          hstats]
    · rcases hp : w.geoip_policy geo.country_code with _ | action <;>
        simp only [hp]
      · split_ifs <;> cases hstats : w.stats <;>
          simp [StageStat, droppedCount, bumpStat, stats_drop, emit_event,
            hstats]
      · rcases har : w.adaptive_rate pkt.src_ip with _ | ar <;>
          simp only [har] <;> split_ifs <;> cases hstats : w.stats <;>
          simp [StageStat, droppedCount, bumpStat, stats_drop, emit_event,
            hstats]

theorem port_scan_detect_statsEq (w : World) (src dport now : Nat) :
    droppedCount (port_scan_detect w src dport now).2 = droppedCount w ∧
    (port_scan_detect w src dport now).2.stats.isSome = w.stats.isSome := by
  unfold port_scan_detect
  rcases hps : w.port_scan src with _ | ps <;> simp only [hps]
  · cases hstats : w.stats <;> simp [droppedCount, hstats]
  · split_ifs <;> cases hstats : w.stats <;>
      simp [droppedCount, bumpStat, hstats]

set_option maxHeartbeats 2000000 in
theorem stageStat_reputation (pkt : PacketCtx) (w : World) (now : Nat) :
    StageStat (reputation_check pkt w now) w 1 := by
  unfold reputation_check
  by_cases h1 : get_config w CFG_REPUTATION_ENABLE = 0
  · simp [StageStat, h1]
  · rcases hrep : w.reputation pkt.src_ip with _ | rep <;>
      simp only [if_neg h1, hrep]
    · unfold StageStat
      constructor
      · rw [(port_scan_detect_statsEq _ pkt.src_ip pkt.dst_port now).1]
        cases hstats : w.stats <;> simp [droppedCount, hstats]
      · rw [(port_scan_detect_statsEq _ pkt.src_ip pkt.dst_port now).2]
    · obtain ⟨ha, hb⟩ :=
        port_scan_detect_statsEq w pkt.src_ip pkt.dst_port now
      split_ifs <;>
      · rcases hsp : (port_scan_detect w pkt.src_ip pkt.dst_port now).2.stats
            with _ | s2 <;> cases hstats : w.stats <;>
          simp [StageStat, droppedCount, bumpStat, stats_drop, emit_event,
            hsp, hstats] at ha hb ⊢ <;>
        omega

theorem stageStat_fragment (f : Frame) (pkt : PacketCtx) (w : World) :
    StageStat (fragment_check f pkt w) w 0 := by
  unfold fragment_check
  by_cases hfr : pkt.is_fragment = 0
  · simp [StageStat, hfr]
  · rcases hl3 : parseL3Start f with _ | lp <;> simp only [if_neg hfr, hl3]
    · simp [StageStat]
    · split_ifs <;> cases hstats : w.stats <;>
        simp [StageStat, droppedCount, bumpStat, emit_event, hstats]

theorem fingerprint_loop_statsEq (f : Frame) (pkt : PacketCtx)
    (c sp dp : Nat) (l : List Nat) : ∀ w : World,
    droppedCount (fingerprint_loop f pkt c sp dp w l).2 = droppedCount w ∧
    (fingerprint_loop f pkt c sp dp w l).2.stats.isSome =
      w.stats.isSome := by
  induction l with
  | nil => intro w; simp [fingerprint_loop]
  | cons i rest ih =>
    intro w
    by_cases hic : i < c
    · rcases hsig : w.attack_sigs i with _ | sig <;>
        simp only [fingerprint_loop, if_pos hic, hsig]
      · exact ih w
      · by_cases hm : sig_matches f sig pkt sp dp
        · simp only [if_pos hm]
          cases hstats : w.stats <;>
            simp [droppedCount, bumpStat, emit_event, hstats]
        · simp only [if_neg hm]
          exact ih w
    · simp only [fingerprint_loop, if_neg hic]
      exact ih w

theorem stageStat_fingerprint (f : Frame) (pkt : PacketCtx) (w : World) :
    StageStat (fingerprint_check f pkt w) w 0 := by
  unfold fingerprint_check
  rcases hc : w.attack_sig_count with _ | c <;> simp only [hc]
  · simp [StageStat]
  · split_ifs with h0 h8
    · simp [StageStat]
    · obtain ⟨ha, hb⟩ := fingerprint_loop_statsEq f pkt 8
        (pkt.src_port % u16mod) (pkt.dst_port % u16mod)
        [0, 1, 2, 3, 4, 5, 6, 7] w
      exact ⟨by simp [ha], hb⟩
    · obtain ⟨ha, hb⟩ := fingerprint_loop_statsEq f pkt c
        (pkt.src_port % u16mod) (pkt.dst_port % u16mod)
        [0, 1, 2, 3, 4, 5, 6, 7] w
      exact ⟨by simp [ha], hb⟩

theorem stageStat_payload_handle_action (idx : Nat) (rule : PayloadRule)
    (pkt : PacketCtx) (w : World) :
    StageStat (payload_handle_action idx rule pkt w) w 1 := by
  unfold payload_handle_action
  rcases har : w.adaptive_rate pkt.src_ip with _ | ar <;>
    simp only [har] <;> split_ifs <;> cases hstats : w.stats <;>
    simp [StageStat, droppedCount, bumpStat, stats_drop, emit_event, hstats]

theorem check_payload_rule_stats (f : Frame) (pkt : PacketCtx) (w : World)
    (idx : Nat) : ∀ r, check_payload_rule f pkt w idx = some r →
    StageStat r w 1 := by
  unfold check_payload_rule
  rcases hr : w.payload_rules idx with _ | rule <;> simp only [hr]
  · intro r h; cases h
  · intro r
    split_ifs <;> intro h <;> cases h <;>
      exact stageStat_payload_handle_action idx rule pkt w

theorem payload_loop_stats (f : Frame) (pkt : PacketCtx) (rc : Nat)
    (l : List Nat) : ∀ w : World,
    StageStat (payload_loop f pkt rc w l) w 1 := by
  induction l with
  | nil => intro w; simp [StageStat, payload_loop]
  | cons i rest ih =>
    intro w
    by_cases hic : i < rc
    · rcases hcr : check_payload_rule f pkt w i with _ | r <;>
        simp only [payload_loop, if_pos hic, hcr]
      · exact ih w
      · exact check_payload_rule_stats f pkt w i r hcr

    · simp only [payload_loop, if_neg hic]
      exact ih w

theorem stageStat_payload (f : Frame) (pkt : PacketCtx) (w : World) :
    StageStat (payload_match_check f pkt w) w 1 := by
  unfold payload_match_check
  split_ifs with h1 h2
  · simp [StageStat]
  · simp [StageStat]
  · rcases hc : w.payload_rule_count with _ | c <;> simp only [hc]
    · simp [StageStat]
    · split_ifs with h0 h8
      · simp [StageStat]
      · exact payload_loop_stats f pkt 8 [0, 1, 2, 3, 4, 5, 6, 7] w
      · exact payload_loop_stats f pkt c [0, 1, 2, 3, 4, 5, 6, 7] w

set_option maxHeartbeats 1000000 in
theorem stageStat_dns (f : Frame) (pkt : PacketCtx) (w : World)
    (m : Nat) : StageStat (dns_validate f pkt w m) w 1 := by
  unfold dns_validate
  dsimp only
  split_ifs <;> cases hstats : w.stats <;>
    simp [StageStat, droppedCount, bumpStat, stats_drop, emit_event, hstats]

set_option maxHeartbeats 1000000 in
theorem stageStat_ntp (f : Frame) (pkt : PacketCtx) (w : World) :
    StageStat (ntp_validate f pkt w) w 1 := by
  unfold ntp_validate
  dsimp only
  split_ifs <;> cases hstats : w.stats <;>
    simp [StageStat, droppedCount, bumpStat, stats_drop, emit_event, hstats]

theorem stageStat_ssdp (f : Frame) (pkt : PacketCtx) (w : World) :
    StageStat (ssdp_validate f pkt w) w 1 := by
  unfold ssdp_validate
  dsimp only
  split_ifs <;> cases hstats : w.stats <;>
    simp [StageStat, droppedCount, bumpStat, stats_drop, emit_event, hstats]

theorem stageStat_memcached (pkt : PacketCtx) (w : World) :
    StageStat (memcached_validate pkt w) w 1 := by
  unfold memcached_validate
  cases hstats : w.stats <;>
    simp [StageStat, droppedCount, bumpStat, stats_drop, emit_event, hstats]

set_option maxHeartbeats 1000000 in
theorem stageStat_tcp_state (f : Frame) (pkt : PacketCtx) (w : World)
    (now : Nat) : StageStat (tcp_state_validate f pkt w now) w 1 := by
  unfold tcp_state_validate
  by_cases h1 : get_config w CFG_TCP_STATE_ENABLE = 0
  · simp [StageStat, h1]
  by_cases h2 : pkt.ip_proto ≠ IPPROTO_TCP
  · simp [StageStat, h1, h2]
  by_cases h3 : pkt.l4_offset = 0
  · simp [StageStat, h1, h2, h3]
  by_cases h4 : 1500 < pkt.l4_offset
  · simp [StageStat, h1, h2, h3, h4]
  by_cases h5 : pkt.l4_offset + 20 ≤ f.length
  case neg => simp [StageStat, h1, h2, h3, h4, h5]
  simp only [if_neg h1, if_neg h2, if_neg h3, if_neg h4,
    if_neg (not_not_intro h5)]
  rcases hct : w.conntrack ⟨pkt.src_ip, pkt.dst_ip, pkt.src_port,
      pkt.dst_port, IPPROTO_TCP⟩ with _ | ct <;> simp only [hct]
  · split_ifs <;> cases hstats : w.stats <;>
      simp [StageStat, droppedCount, bumpStat, stats_drop, emit_event,
        hstats]
  · split_ifs <;> cases hstats : w.stats <;>
      simp [StageStat, droppedCount, bumpStat, stats_drop, emit_event,
        hstats]

set_option maxHeartbeats 1000000 in
theorem stageStat_proto (f : Frame) (pkt : PacketCtx) (w : World)
    (now : Nat) : StageStat (proto_validate f pkt w now) w 1 := by
  unfold proto_validate
  by_cases h1 : get_config w CFG_PROTO_VALID_ENABLE = 0
  · simp [StageStat, h1]
  simp only [if_neg h1]
  by_cases htcp : pkt.ip_proto = IPPROTO_TCP
  · obtain ⟨ha, hb⟩ := stageStat_tcp_state f pkt w now
    have hnu : ¬ pkt.ip_proto = IPPROTO_UDP := by
      rw [htcp]; simp [IPPROTO_TCP, IPPROTO_UDP]
    simp only [if_pos htcp]
    by_cases hd : (tcp_state_validate f pkt w now).1 = Verdict.drop
    · simp only [if_pos hd]
      exact ⟨by simpa [hd] using ha, hb⟩
    · simp only [if_neg hd, if_neg hnu]
      exact ⟨by simpa [hd] using ha, hb⟩
  · simp only [if_neg htcp]
    have hnd : ¬ (Verdict.pass = Verdict.drop) := by simp
    simp only [if_neg hnd]
    by_cases hu : pkt.ip_proto = IPPROTO_UDP
    · simp only [if_pos hu]
      by_cases hpo : pkt.payload_offset = 0 ∨ 1500 < pkt.payload_offset
      · simp [StageStat, hpo]
      simp only [if_neg hpo]
      by_cases hpl : ¬ pkt.payload_offset ≤ f.length
      · simp [StageStat, hpl]
      simp only [if_neg hpl]
      by_cases h53 : pkt.dst_port % u16mod = 53 ∧
          0 < get_config w CFG_DNS_VALID_MODE
      · simp only [if_pos h53]
        exact stageStat_dns f pkt w _
      simp only [if_neg h53]
      by_cases h123 : pkt.dst_port % u16mod = 123
      · simp only [if_pos h123]
        exact stageStat_ntp f pkt w
      simp only [if_neg h123]
      by_cases h1900 : pkt.dst_port % u16mod = 1900
      · simp only [if_pos h1900]
        exact stageStat_ssdp f pkt w
      simp only [if_neg h1900]
      by_cases h11211 : pkt.dst_port % u16mod = 11211
      · simp only [if_pos h11211]
        exact stageStat_memcached pkt w
      simp only [if_neg h11211]
      rcases hpp : w.port_proto pkt.dst_port with _ | pf <;> simp only [hpp]
      · simp [StageStat]
      · split_ifs
        · simp [StageStat]
        · exact stageStat_dns f pkt w _
        · exact stageStat_ntp f pkt w
        · exact stageStat_ssdp f pkt w
        · exact stageStat_memcached pkt w
        · simp [StageStat]
    · simp only [if_neg hu]
      simp [StageStat]

/-- C9: dropped_packets is not incremented exactly once per dropped
packet.  Relative to the world entering the deciding stage (with the
statistics slot present where the count moves): an ACL drop leaves
dropped_packets unchanged, a threat-intel / GeoIP / reputation drop adds
2 (one increment inside the stage, one more in the xdp_main pipeline), a
fragment or fingerprint drop adds 0, and a payload-match or
protocol-validation drop adds 2. -/
theorem c9_dropped_packets_miscount (f : Frame) (pkt : PacketCtx)
    (w : World) (now : Nat) :
    ((acl_check pkt w).1 = Verdict.drop →
      droppedCount (scrub_stages f pkt w now).2.1 = droppedCount w) ∧
    ((acl_check pkt w).1 ≠ Verdict.drop →
      (threat_intel_check pkt (c9w1 pkt w)).1 = Verdict.drop →
      (c9w1 pkt w).stats.isSome = true →
      droppedCount (scrub_stages f pkt w now).2.1 =
        droppedCount (c9w1 pkt w) + 2) ∧
    ((acl_check pkt w).1 ≠ Verdict.drop →
      (threat_intel_check pkt (c9w1 pkt w)).1 ≠ Verdict.drop →
      (geoip_check pkt (c9w2 pkt w)).1 = Verdict.drop →
      (c9w2 pkt w).stats.isSome = true →
      droppedCount (scrub_stages f pkt w now).2.1 =
        droppedCount (c9w2 pkt w) + 2) ∧
    ((acl_check pkt w).1 ≠ Verdict.drop →
      (threat_intel_check pkt (c9w1 pkt w)).1 ≠ Verdict.drop →
      (geoip_check pkt (c9w2 pkt w)).1 ≠ Verdict.drop →
      (reputation_check pkt (c9w3 pkt w) now).1 = Verdict.drop →
      (c9w3 pkt w).stats.isSome = true →
      droppedCount (scrub_stages f pkt w now).2.1 =
        droppedCount (c9w3 pkt w) + 2) ∧
    ((acl_check pkt w).1 ≠ Verdict.drop →
      (threat_intel_check pkt (c9w1 pkt w)).1 ≠ Verdict.drop →
      (geoip_check pkt (c9w2 pkt w)).1 ≠ Verdict.drop →
      (reputation_check pkt (c9w3 pkt w) now).1 ≠ Verdict.drop →
      (fragment_check f pkt (c9w4 pkt w now)).1 = Verdict.drop →
      droppedCount (scrub_stages f pkt w now).2.1 =
        droppedCount (c9w4 pkt w now)) ∧
    ((acl_check pkt w).1 ≠ Verdict.drop →
      (threat_intel_check pkt (c9w1 pkt w)).1 ≠ Verdict.drop →
      (geoip_check pkt (c9w2 pkt w)).1 ≠ Verdict.drop →
      (reputation_check pkt (c9w3 pkt w) now).1 ≠ Verdict.drop →
      (fragment_check f pkt (c9w4 pkt w now)).1 ≠ Verdict.drop →
      (fingerprint_check f pkt (c9w5 f pkt w now)).1 = Verdict.drop →
      droppedCount (scrub_stages f pkt w now).2.1 =
        droppedCount (c9w5 f pkt w now)) ∧
    ((acl_check pkt w).1 ≠ Verdict.drop →
      (threat_intel_check pkt (c9w1 pkt w)).1 ≠ Verdict.drop →
      (geoip_check pkt (c9w2 pkt w)).1 ≠ Verdict.drop →
      (reputation_check pkt (c9w3 pkt w) now).1 ≠ Verdict.drop →
      (fragment_check f pkt (c9w4 pkt w now)).1 ≠ Verdict.drop →
      (fingerprint_check f pkt (c9w5 f pkt w now)).1 ≠ Verdict.drop →
      (payload_match_check f pkt (c9w6 f pkt w now)).1 = Verdict.drop →
      (c9w6 f pkt w now).stats.isSome = true →
      droppedCount (scrub_stages f pkt w now).2.1 =
        droppedCount (c9w6 f pkt w now) + 2) ∧
    ((acl_check pkt w).1 ≠ Verdict.drop →
      (threat_intel_check pkt (c9w1 pkt w)).1 ≠ Verdict.drop →
      (geoip_check pkt (c9w2 pkt w)).1 ≠ Verdict.drop →
      (reputation_check pkt (c9w3 pkt w) now).1 ≠ Verdict.drop →
      (fragment_check f pkt (c9w4 pkt w now)).1 ≠ Verdict.drop →
      (fingerprint_check f pkt (c9w5 f pkt w now)).1 ≠ Verdict.drop →
      (payload_match_check f pkt (c9w6 f pkt w now)).1 ≠ Verdict.drop →
      (proto_validate f pkt (c9w7 f pkt w now) now).1 = Verdict.drop →
      (c9w7 f pkt w now).stats.isSome = true →
      droppedCount (scrub_stages f pkt w now).2.1 =
        droppedCount (c9w7 f pkt w now) + 2) := by
  refine ⟨?_, ?_, ?_, ?_, ?_, ?_, ?_, ?_⟩
  · intro hv1
    obtain ⟨ha, hb⟩ := stageStat_acl pkt w
    simp only [scrub_stages, if_pos hv1]
    simp [ha]
  · intro hv1 hv2 hs
    simp only [c9w1] at hv2 hs ⊢
    obtain ⟨ha, hb⟩ := stageStat_threat pkt (acl_check pkt w).2
    simp only [scrub_stages, if_neg hv1, if_pos hv2]
    rw [droppedCount_stats_drop _ _ (hb.trans hs), ha, if_pos ⟨hv2, hs⟩]
  · intro hv1 hv2 hv3 hs
    simp only [c9w1, c9w2] at hv2 hv3 hs ⊢
    obtain ⟨ha, hb⟩ := stageStat_geoip pkt
      (threat_intel_check pkt (acl_check pkt w).2).2
    simp only [scrub_stages, if_neg hv1, if_neg hv2, if_pos hv3]
    rw [droppedCount_stats_drop _ _ (hb.trans hs), ha, if_pos ⟨hv3, hs⟩]
  · intro hv1 hv2 hv3 hv4 hs
    simp only [c9w1, c9w2, c9w3] at hv2 hv3 hv4 hs ⊢
    obtain ⟨ha, hb⟩ := stageStat_reputation pkt
      (geoip_check pkt (threat_intel_check pkt (acl_check pkt w).2).2).2 now
    simp only [scrub_stages, if_neg hv1, if_neg hv2, if_neg hv3, if_pos hv4]
    rw [droppedCount_stats_drop _ _ (hb.trans hs), ha, if_pos ⟨hv4, hs⟩]
  · intro hv1 hv2 hv3 hv4 hv5
    simp only [c9w1, c9w2, c9w3, c9w4] at hv2 hv3 hv4 hv5 ⊢
    obtain ⟨ha, hb⟩ := stageStat_fragment f pkt
      (reputation_check pkt
        (geoip_check pkt (threat_intel_check pkt (acl_check pkt w).2).2).2
        now).2
    simp only [scrub_stages, if_neg hv1, if_neg hv2, if_neg hv3, if_neg hv4,
      if_pos hv5]
    simp [ha]
  · intro hv1 hv2 hv3 hv4 hv5 hv6
    simp only [c9w1, c9w2, c9w3, c9w4, c9w5] at hv2 hv3 hv4 hv5 hv6 ⊢
    obtain ⟨ha, hb⟩ := stageStat_fingerprint f pkt
      (fragment_check f pkt
        (reputation_check pkt
          (geoip_check pkt
            (threat_intel_check pkt (acl_check pkt w).2).2).2 now).2).2
    simp only [scrub_stages, if_neg hv1, if_neg hv2, if_neg hv3, if_neg hv4,
      if_neg hv5, if_pos hv6]
    simp [ha]
  · intro hv1 hv2 hv3 hv4 hv5 hv6 hv7 hs
    simp only [c9w1, c9w2, c9w3, c9w4, c9w5, c9w6]
      at hv2 hv3 hv4 hv5 hv6 hv7 hs ⊢
    obtain ⟨ha, hb⟩ := stageStat_payload f pkt
      (fingerprint_check f pkt
        (fragment_check f pkt
          (reputation_check pkt
            (geoip_check pkt
              (threat_intel_check pkt (acl_check pkt w).2).2).2 now).2).2).2
    simp only [scrub_stages, if_neg hv1, if_neg hv2, if_neg hv3, if_neg hv4,
      if_neg hv5, if_neg hv6, if_pos hv7]
    rw [droppedCount_stats_drop _ _ (hb.trans hs), ha, if_pos ⟨hv7, hs⟩]
  · intro hv1 hv2 hv3 hv4 hv5 hv6 hv7 hv8 hs
    simp only [c9w1, c9w2, c9w3, c9w4, c9w5, c9w6, c9w7]
      at hv2 hv3 hv4 hv5 hv6 hv7 hv8 hs ⊢
    obtain ⟨ha, hb⟩ := stageStat_proto f pkt
      (payload_match_check f pkt
        (fingerprint_check f pkt
          (fragment_check f pkt
            (reputation_check pkt
              (geoip_check pkt
                (threat_intel_check pkt (acl_check pkt w).2).2).2
              now).2).2).2).2 now
    simp only [scrub_stages, if_neg hv1, if_neg hv2, if_neg hv3, if_neg hv4,
      if_neg hv5, if_neg hv6, if_neg hv7, if_pos hv8]
    rw [droppedCount_stats_drop _ _ (hb.trans hs), ha, if_pos ⟨hv8, hs⟩]

/-- C9 witness: a blacklist (ACL) drop leaves dropped_packets at 0, a
threat-intel drop brings it to 2, and a protocol-validation (memcached)
drop brings it to 2, each relative to the world entering the deciding
stage. -/
theorem c9_dropped_packets_miscount_witness :
    droppedCount (scrub_stages [] pktC9 wC9blk 0).2.1 =
      droppedCount wC9blk ∧
    droppedCount (scrub_stages [] pktC9 wC9threat 0).2.1 =
      droppedCount (c9w1 pktC9 wC9threat) + 2 ∧
    droppedCount (scrub_stages zeroFrame60 pktC9mem wC9mem 0).2.1 =
      droppedCount (c9w7 zeroFrame60 pktC9mem wC9mem 0) + 2 :=
  ⟨(c9_dropped_packets_miscount [] pktC9 wC9blk 0).1 (by decide),
   (c9_dropped_packets_miscount [] pktC9 wC9threat 0).2.1 (by decide)
     (by decide) (by decide),
   (c9_dropped_packets_miscount zeroFrame60 pktC9mem wC9mem 0).2.2.2.2.2.2.2
     (by decide) (by decide) (by decide) (by decide) (by decide)
     (by decide) (by decide) (by decide) (by decide)⟩

/-! ## C3: frame write/read lemmas and cookie algebra -/

theorem length_setByte (f : Frame) (i v : Nat) :
    (setByte f i v).length = f.length := by
  simp [setByte]

theorem length_setBe16 (f : Frame) (i v : Nat) :
    (setBe16 f i v).length = f.length := by
  simp [setBe16, setByte]

theorem length_setBe32 (f : Frame) (i v : Nat) :
    (setBe32 f i v).length = f.length := by
  simp [setBe32, setByte]

theorem length_setLe16 (f : Frame) (i v : Nat) :
    (setLe16 f i v).length = f.length := by
  simp [setLe16, setByte]

theorem length_foldl_swap (f : Frame) (l : List Nat) : ∀ g : Frame,
    (l.foldl (fun g i =>
      setByte (setByte g i (byteAt f (6 + i))) (6 + i) (byteAt f i)) g).length
      = g.length := by
  induction l with
  | nil => intro g; rfl
  | cons a rest ih =>
    intro g
    rw [List.foldl_cons, ih]
    simp [setByte]

theorem length_swapMacAddrs (f : Frame) :
    (swapMacAddrs f).length = f.length := by
  unfold swapMacAddrs
  exact length_foldl_swap f (List.range 6) f

theorem byteAt_setByte_ne (f : Frame) (i v j : Nat) (h : j ≠ i) :
    byteAt (setByte f i v) j = byteAt f j := by
  simp [byteAt, setByte, List.getD, List.getElem?_set_ne (Ne.symm h)]

theorem byteAt_setByte_eq (f : Frame) (i v : Nat) (h : i < f.length) :
    byteAt (setByte f i v) i = v % 256 := by
  simp [byteAt, setByte, List.getD, List.getElem?_set_self, h]

theorem be32_setByte_ne (f : Frame) (j v i : Nat)
    (h : j < i ∨ i + 4 ≤ j) : be32 (setByte f j v) i = be32 f i := by
  simp only [be32]
  rw [byteAt_setByte_ne f j v i (by omega),
    byteAt_setByte_ne f j v (i + 1) (by omega),
    byteAt_setByte_ne f j v (i + 2) (by omega),
    byteAt_setByte_ne f j v (i + 3) (by omega)]

theorem be32_setBe16_ne (f : Frame) (j v i : Nat)
    (h : j + 2 ≤ i ∨ i + 4 ≤ j) : be32 (setBe16 f j v) i = be32 f i := by
  simp only [setBe16]
  rw [be32_setByte_ne _ (j + 1) _ i (by omega),
    be32_setByte_ne _ j _ i (by omega)]

theorem be32_setLe16_ne (f : Frame) (j v i : Nat)
    (h : j + 2 ≤ i ∨ i + 4 ≤ j) : be32 (setLe16 f j v) i = be32 f i := by
  simp only [setLe16]
  rw [be32_setByte_ne _ (j + 1) _ i (by omega),
    be32_setByte_ne _ j _ i (by omega)]

theorem be32_setBe32_self (f : Frame) (i v : Nat) (h : i + 4 ≤ f.length) :
    be32 (setBe32 f i v) i = v % u32mod := by
  have l0 : i < f.length := by omega
  have hL : ∀ g : Frame, g.length = f.length → ∀ k, k < 4 →
      i + k < g.length := by
    intro g hg k hk; omega
  simp only [setBe32, be32]
  rw [byteAt_setByte_ne _ (i + 3) _ i (by omega),
    byteAt_setByte_ne _ (i + 2) _ i (by omega),
    byteAt_setByte_ne _ (i + 1) _ i (by omega),
    byteAt_setByte_eq _ i _ (by omega)]
  rw [show i + 1 = (i + 1) from rfl]
  rw [byteAt_setByte_ne _ (i + 3) _ (i + 1) (by omega),
    byteAt_setByte_ne _ (i + 2) _ (i + 1) (by omega),
    byteAt_setByte_eq _ (i + 1) _ (by simp [setByte]; omega)]
  rw [byteAt_setByte_ne _ (i + 3) _ (i + 2) (by omega),
    byteAt_setByte_eq _ (i + 2) _ (by simp [setByte]; omega)]
  rw [byteAt_setByte_eq _ (i + 3) _ (by simp [setByte]; omega)]
  have h32 : u32mod = 4294967296 := by norm_num [u32mod]
  rw [h32]
  omega

theorem or_low2_and3 (A m : Nat) (hA : A % 4 = 0) :
    (A ||| (m &&& 3)) &&& 3 = m &&& 3 := by
  have h4 : (4 : Nat) = 2 ^ 2 := rfl
  have h3 : (3 : Nat) = 2 ^ 2 - 1 := rfl
  apply Nat.eq_of_testBit_eq
  intro i
  simp only [Nat.testBit_and, Nat.testBit_or, h3,
    Nat.testBit_two_pow_sub_one]
  by_cases hi : i < 2
  · have hAbit : A.testBit i = false := by
      have hmod := Nat.testBit_mod_two_pow A 2 i
      rw [← h4, hA] at hmod
      simpa [hi] using hmod.symm
    simp [hAbit, hi]
  · simp [hi]

theorem syn_cookie_generate_lt (pkt : PacketCtx) (seed m : Nat) :
    syn_cookie_generate pkt seed m < u32mod := by
  unfold syn_cookie_generate
  have h32 : u32mod = 2 ^ 32 := rfl
  rw [h32]
  refine Nat.or_lt_two_pow (Nat.mod_lt _ (by norm_num)) ?_
  calc m &&& 3 ≤ 3 := Nat.and_le_right
    _ < 2 ^ 32 := by norm_num

theorem syn_cookie_generate_and3 (pkt : PacketCtx) (seed m : Nat) :
    syn_cookie_generate pkt seed m &&& 3 = m &&& 3 := by
  unfold syn_cookie_generate
  apply or_low2_and3
  rw [Nat.shiftLeft_eq]
  have : u32mod = 4 * 2 ^ 30 := by norm_num [u32mod]
  rw [this, Nat.mul_comm _ (2 ^ 2), show (2:Nat) ^ 2 = 4 from rfl,
    Nat.mul_mod_mul_left]
  simp [Nat.mul_mod_right]

theorem syn_cookie_generate_congr (pkt2 pkt : PacketCtx) (seed m : Nat)
    (h1 : pkt2.src_ip = pkt.src_ip) (h2 : pkt2.dst_ip = pkt.dst_ip)
    (h3 : pkt2.src_port = pkt.src_port) (h4 : pkt2.dst_port = pkt.dst_port) :
    syn_cookie_generate pkt2 seed m = syn_cookie_generate pkt seed m := by
  unfold syn_cookie_generate
  rw [h1, h2, h3, h4]

theorem u32sub_succ (c : Nat) (hc : c < u32mod) :
    u32sub ((c + 1) % u32mod) 1 = c := by
  have h32 : u32mod = 4294967296 := by norm_num [u32mod]
  unfold u32sub
  rw [h32] at hc ⊢
  omega

theorem syn_cookie_validate_of_gen (w : World) (pkt2 : PacketCtx)
    (sc : SynCookieCtx) (c : Nat) (hsc : w.syn_cookie = some sc)
    (hc : c < u32mod)
    (hgen : syn_cookie_generate pkt2 sc.seed_current (c &&& 3) = c ∨
      syn_cookie_generate pkt2 sc.seed_previous (c &&& 3) = c) :
    syn_cookie_validate w pkt2 ((c + 1) % u32mod) = 1 := by
  unfold syn_cookie_validate
  rw [hsc]
  simp only [u32sub_succ c hc]
  rcases hgen with h | h
  · rw [if_pos h.symm]
  · by_cases h1 : c = syn_cookie_generate pkt2 sc.seed_current (c &&& 3)
    · rw [if_pos h1]
    · rw [if_neg h1, if_pos h.symm]

theorem vlanOnce_mono (f : Frame) (s lp : Nat × Nat)
    (h : vlanOnce f s = some lp) : s.1 ≤ lp.1 := by
  unfold vlanOnce at h
  split_ifs at h <;> cases h
  all_goals try dsimp only
  all_goals omega

theorem parseL3Start_lower (f : Frame) (lp : Nat × Nat)
    (h : parseL3Start f = some lp) : 14 ≤ lp.1 ∧ 14 ≤ f.length := by
  unfold parseL3Start at h
  split_ifs at h with h14
  · refine ⟨?_, h14⟩
    rcases hv1 : vlanOnce f (14, be16 f 12) with _ | s1 <;> rw [hv1] at h
    · cases h
    · simp only [Option.bind] at h
      have m1 := vlanOnce_mono f _ _ hv1
      have m2 := vlanOnce_mono f _ _ h
      dsimp only at m1
      omega

set_option maxHeartbeats 2000000 in
/-- C3: for a pure SYN that takes the SYN-cookie TX path, the SYN-ACK's
TCP sequence field holds exactly the cookie generated from seed_current
and the packet 4-tuple, with the MSS index (3, for the default MSS 1460)
in its low 2 bits; an ACK from the same 4-tuple whose ack_seq is
cookie + 1 validates under seed_current, and still validates after one
seed rotation that moved seed_current into seed_previous. -/
theorem c3_syn_cookie_round_trip (f : Frame) (pkt : PacketCtx) (w : World)
    (now : Nat) (sc : SynCookieCtx) (lp : Nat × Nat)
    (htcp : pkt.ip_proto = IPPROTO_TCP)
    (hptr : pkt.l4_ptr ≠ none)
    (hen : get_config w CFG_SYN_COOKIE_ENABLE ≠ 0)
    (hsyn : pkt.tcp_flags &&& (TCP_FLAG_SYN ||| TCP_FLAG_ACK) = TCP_FLAG_SYN)
    (hsc : w.syn_cookie = some sc)
    (hl3 : parseL3Start f = some lp)
    (hgap : lp.1 + 20 ≤ pkt.l4_offset)
    (hl4max : pkt.l4_offset ≤ 1500)
    (hlen : pkt.l4_offset + 20 ≤ f.length) :
    (syn_flood_check f pkt w now).1 = Verdict.tx ∧
    be32 (syn_flood_check f pkt w now).2.2 (pkt.l4_offset + 4) =
      syn_cookie_generate pkt sc.seed_current (mss_to_index 1460) ∧
    be32 (syn_flood_check f pkt w now).2.2 (pkt.l4_offset + 4) &&& 3 =
      mss_to_index 1460 ∧
    (∀ pkt2 : PacketCtx, pkt2.src_ip = pkt.src_ip →
      pkt2.dst_ip = pkt.dst_ip → pkt2.src_port = pkt.src_port →
      pkt2.dst_port = pkt.dst_port →
      syn_cookie_validate w pkt2
        ((syn_cookie_generate pkt sc.seed_current (mss_to_index 1460) + 1)
          % u32mod) = 1) ∧
    (∀ (pkt2 : PacketCtx) (w2 : World) (sc2 : SynCookieCtx),
      pkt2.src_ip = pkt.src_ip → pkt2.dst_ip = pkt.dst_ip →
      pkt2.src_port = pkt.src_port → pkt2.dst_port = pkt.dst_port →
      w2.syn_cookie = some sc2 → sc2.seed_previous = sc.seed_current →
      syn_cookie_validate w2 pkt2
        ((syn_cookie_generate pkt sc.seed_current (mss_to_index 1460) + 1)
          % u32mod) = 1) := by
  obtain ⟨hlp14, hf14⟩ := parseL3Start_lower f lp hl3
  have hm : mss_to_index 1460 = 3 := by decide
  have hClt := syn_cookie_generate_lt pkt sc.seed_current 3
  have hC3 : syn_cookie_generate pkt sc.seed_current 3 &&& 3 = 3 := by
    simpa using syn_cookie_generate_and3 pkt sc.seed_current 3
  have g1 : ¬ (pkt.ip_proto ≠ IPPROTO_TCP) := not_not_intro htcp
  have g5 : ¬ ¬ 14 ≤ f.length := not_not_intro hf14
  have g6 : ¬ (pkt.l4_offset < 14 ∨ 1500 < pkt.l4_offset) := by omega
  have g7 : ¬ ¬ (lp.1 + 20 ≤ f.length) := not_not_intro (by omega)
  have g8 : ¬ ¬ (pkt.l4_offset + 20 ≤ f.length) := not_not_intro hlen
  have g9 : ¬ (1500 < pkt.l4_offset) := by omega
  have g10 : ¬ ¬ (14 + 20 ≤ f.length) := not_not_intro (by omega)
  have hmain : (syn_flood_check f pkt w now).1 = Verdict.tx ∧
      be32 (syn_flood_check f pkt w now).2.2 (pkt.l4_offset + 4) =
        syn_cookie_generate pkt sc.seed_current (mss_to_index 1460) := by
    refine ⟨?_, ?_⟩ <;>
      simp only [syn_flood_check, length_setByte, length_setBe16,
        length_setBe32, length_setLe16, length_swapMacAddrs, hsc, hl3,
        if_neg g1, if_neg hptr, if_neg hen, if_pos hsyn, if_neg g5,
        if_neg g6, if_neg g7, if_neg g8, if_neg g9, if_neg g10]
    rw [be32_setBe16_ne _ _ _ _ (by omega),
      be32_setLe16_ne _ _ _ _ (by omega),
      be32_setLe16_ne _ _ _ _ (by omega),
      be32_setBe16_ne _ _ _ _ (by omega),
      be32_setByte_ne _ _ _ _ (by omega),
      be32_setBe32_self _ _ _ (by
        simp only [length_setByte, length_setBe16, length_setBe32,
          length_setLe16, length_swapMacAddrs]
        omega)]
    rw [hm]
    exact Nat.mod_eq_of_lt hClt
  refine ⟨hmain.1, hmain.2, ?_, ?_, ?_⟩
  · rw [hmain.2, hm, hC3]
  · intro pkt2 e1 e2 e3 e4
    rw [hm]
    refine syn_cookie_validate_of_gen w pkt2 sc _ hsc hClt (Or.inl ?_)
    rw [hC3]
    exact syn_cookie_generate_congr pkt2 pkt sc.seed_current 3 e1 e2 e3 e4
  · intro pkt2 w2 sc2 e1 e2 e3 e4 hsc2 hprev
    rw [hm]
    refine syn_cookie_validate_of_gen w2 pkt2 sc2 _ hsc2 hClt (Or.inr ?_)
    rw [hC3, hprev]
    exact syn_cookie_generate_congr pkt2 pkt sc.seed_current 3 e1 e2 e3 e4

/-- C3 witness: the round trip on the concrete SYN frame of scenario S1,
including validation after a seed rotation. -/
theorem c3_syn_cookie_round_trip_witness :
    (syn_flood_check synFrame pktC3 wC3 0).1 = Verdict.tx ∧
    be32 (syn_flood_check synFrame pktC3 wC3 0).2.2 (pktC3.l4_offset + 4) =
      syn_cookie_generate pktC3 scC3.seed_current (mss_to_index 1460) ∧
    syn_cookie_validate wC3 pktC3
      ((syn_cookie_generate pktC3 scC3.seed_current (mss_to_index 1460) + 1)
        % u32mod) = 1 ∧
    syn_cookie_validate wC3rot pktC3
      ((syn_cookie_generate pktC3 scC3.seed_current (mss_to_index 1460) + 1)
        % u32mod) = 1 := by
  have h := c3_syn_cookie_round_trip synFrame pktC3 wC3 0 scC3 (14, 0x0800)
    rfl (by decide) (by decide) (by decide) rfl (by decide) (by decide)
    (by decide) (by decide)
  exact ⟨h.1, h.2.1, h.2.2.2.1 pktC3 rfl rfl rfl rfl,
    h.2.2.2.2 pktC3 wC3rot scC3rot rfl rfl rfl rfl rfl rfl⟩

end DdosScrub
